import Mathlib

/-!
Verification of the ArchiTxt generation/validation/retry pipeline.

The development shallowly embeds the TypeScript sources of the repository:
* `src/lib/plantuml.ts` (the file shipped as `src/unnamed/part_000`): the
  PlantUML syntax validator `validatePlantUMLForAI`, its helper checks and
  the render validator `validatePlantUMLByRendering`;
* `src/lib/ai-providers.ts`: the retry orchestrators `generateDiagram` and
  `editDiagram` and the prompt builders;
* the edit API route handler (`POST`).

Texts are modelled as `List Char` (`Msg`); JavaScript string primitives
(`split('\n')`, `trim`, `includes`, `indexOf`, counting regex matches) are
reimplemented below on `List Char`.  Network and model behaviour is an
oracle supplied through an environment record, so theorems quantify over
every possible model/renderer behaviour.
-/

/-- A JavaScript string, modelled as its list of characters. -/
abbrev Msg := List Char

/-- Characters of a Lean string literal. -/
def str (s : String) : Msg := s.data

/-- The seven diagram kinds of `DiagramType` in `src/lib/types.ts`
(`cls` stands for the source's `'class'`, a reserved word in Lean). -/
inductive DiagramType where
  | component
  | deployment
  | cls
  | sequence
  | usecase
  | activity
  | state
deriving DecidableEq

/-- A validator verdict `{ valid, errors, suggestions }`. -/
structure Verdict where
  valid : Bool
  errors : List Msg
  suggestions : List Msg
deriving DecidableEq

/-- Whitespace for the purposes of JavaScript `String.trim` (the ASCII
whitespace actually occurring in this code base). -/
def isWsChar (c : Char) : Bool :=
  c = ' ' || c = '\t' || c = '\n' || c = '\r'

/-- JavaScript `s.trim()`. -/
def trimChars (s : Msg) : Msg :=
  ((s.dropWhile isWsChar).reverse.dropWhile isWsChar).reverse

/-- Helper for `splitLines`; `acc` holds the current line reversed. -/
def splitLinesAux : Msg → Msg → List Msg
  | [], acc => [acc.reverse]
  | c :: cs, acc =>
    if c = '\n' then acc.reverse :: splitLinesAux cs []
    else splitLinesAux cs (c :: acc)

/-- JavaScript `text.split('\n')` (keeps empty segments). -/
def splitLines (s : Msg) : List Msg := splitLinesAux s []

/-- Is `p` a (contiguous) prefix of `s`? -/
def isPrefixList : Msg → Msg → Bool
  | [], _ => true
  | _ :: _, [] => false
  | a :: as, b :: bs => a = b && isPrefixList as bs

/-- Is `p` a contiguous substring of the second argument? -/
def isSubList (p : Msg) : Msg → Bool
  | [] => isPrefixList p []
  | c :: rest => isPrefixList p (c :: rest) || isSubList p rest

/-- JavaScript `s.includes(pat)`. -/
def includesStr (s pat : Msg) : Bool := isSubList pat s

/-- Number of occurrences of the character `c` (JS `(s.match(/c/g)||[]).length`
for a single-character pattern). -/
def countChar (c : Char) (s : Msg) : Nat :=
  s.foldl (fun n d => if d = c then n + 1 else n) 0

/-- Helper for `indexOfSub`. -/
def indexOfSubFrom (pat : Msg) : Msg → Nat → Option Nat
  | [], i => if isPrefixList pat [] then some i else none
  | c :: rest, i =>
    if isPrefixList pat (c :: rest) then some i
    else indexOfSubFrom pat rest (i + 1)

/-- JavaScript `s.indexOf(pat)`, as an `Option`. -/
def indexOfSub (s pat : Msg) : Option Nat := indexOfSubFrom pat s 0

/-- Decimal digits of a natural number (fuel-based so that it unfolds by
kernel reduction). -/
def natToCharsAux : Nat → Nat → Msg
  | 0, _ => []
  | fuel + 1, n =>
    if n < 10 then [Nat.digitChar n]
    else natToCharsAux fuel (n / 10) ++ [Nat.digitChar (n % 10)]

/-- JavaScript template interpolation `${n}` of a natural number. -/
def natToChars (n : Nat) : Msg := natToCharsAux (n + 1) n

/-- The remainder of the line after the first occurrence of `pat`
(`none` when `pat` does not occur; `pat` is nonempty at all call sites). -/
def afterFirstSub (pat : Msg) : Msg → Option Msg
  | [] => none
  | c :: rest =>
    if isPrefixList pat (c :: rest) then some (List.drop pat.length (c :: rest))
    else afterFirstSub pat rest

/-- JavaScript `list.join(sep)`. -/
def joinSep (sep : Msg) : List Msg → Msg
  | [] => []
  | [x] => x
  | x :: y :: rest => x ++ sep ++ joinSep sep (y :: rest)

/-- An entry of the bracket stack of `checkBalancedBrackets`:
the opening character together with its (1-based) line number. -/
structure StackItem where
  char : Char
  line : Nat
deriving DecidableEq

/-- The opening brackets of the `brackets` map in `checkBalancedBrackets`. -/
def isOpenBracket (c : Char) : Bool :=
  c = '(' || c = '[' || c = '\x7b'

/-- The closing brackets (values of the `brackets` map). -/
def isCloseBracket (c : Char) : Bool :=
  c = ')' || c = ']' || c = '\x7d'

/-- The map lookup `brackets[last.char]`: the closing character matching an opening one. -/
def closingFor (c : Char) : Char :=
  if c = '(' then ')' else if c = '[' then ']' else '\x7d'

/-- Error `Unmatched '${char}' on line ${lineNum + 1}`. -/
def unmatchedCloseErr (c : Char) (n : Nat) : Msg :=
  str "Unmatched \x27" ++ [c] ++ str "\x27 on line " ++ natToChars n

/-- The paired suggestion for an unmatched closing bracket. -/
def unmatchedCloseSug (n : Nat) : Msg :=
  str "Check that all brackets and parentheses are properly matched on line " ++ natToChars n

/-- The fragment `'${item.char}' on line ${item.line}` used in the unclosed-bracket error. -/
def stackItemDesc (it : StackItem) : Msg :=
  str "\x27" ++ [it.char] ++ str "\x27 on line " ++ natToChars it.line

/-- Error `Unclosed brackets/parentheses: ...` listing every leftover
opening bracket with its line. -/
def unclosedErr (items : List StackItem) : Msg :=
  str "Unclosed brackets/parentheses: " ++ joinSep (str ", ") (items.map stackItemDesc)

/-- One line of the bracket scan.  The stack has its top at the head (JS
pushes/pops at the array end).  On an unmatched closing bracket the JS code
records one error and `break`s out of the character loop, keeping the stack
as left by the failed `pop`. -/
def scanLine : Msg → List StackItem → Nat → List StackItem × Option (Msg × Msg)
  | [], stack, _ => (stack, none)
  | c :: cs, stack, lineNum =>
    if isOpenBracket c then
      scanLine cs ({ char := c, line := lineNum } :: stack) lineNum
    else if isCloseBracket c then
      match stack with
      | [] => ([], some (unmatchedCloseErr c lineNum, unmatchedCloseSug lineNum))
      | top :: rest =>
        if closingFor top.char = c then scanLine cs rest lineNum
        else (rest, some (unmatchedCloseErr c lineNum, unmatchedCloseSug lineNum))
    else scanLine cs stack lineNum

/-- The outer line loop of `checkBalancedBrackets`, threading the stack and
collecting at most one error/suggestion pair per line. -/
def scanAllLines : List Msg → Nat → List StackItem → List StackItem × List (Msg × Msg)
  | [], _, stack => (stack, [])
  | l :: ls, n, stack =>
    let stepped := scanLine l stack n
    let rest := scanAllLines ls (n + 1) stepped.1
    (rest.1, (match stepped.2 with | some e => [e] | none => []) ++ rest.2)

/-- Function `checkBalancedBrackets` of `src/lib/plantuml.ts`. -/
def checkBalancedBrackets (text : Msg) : Verdict :=
  let scanned := scanAllLines (splitLines text) 1 []
  let stack := scanned.1
  let lineErrs := scanned.2
  let errors := lineErrs.map Prod.fst ++
    (if stack.isEmpty then [] else [unclosedErr stack.reverse])
  let suggestions := lineErrs.map Prod.snd ++
    (if stack.isEmpty then [] else [str "Close all opened brackets and parentheses"])
  { valid := errors.isEmpty, errors := errors, suggestions := suggestions }

/-- A comment line for the validator: starts with `'` or `/'`. -/
def isCommentLine (line : Msg) : Bool :=
  isPrefixList (str "\x27") line || isPrefixList (str "/\x27") line

/-- Function `checkStringTermination` of `src/lib/plantuml.ts`: per-line double-quote
parity on trimmed non-comment lines. -/
def checkStringTermination (text : Msg) : Verdict :=
  let lines := splitLines text
  let checked := (List.range lines.length).filterMap (fun lineNum =>
    match lines.get? lineNum with
    | none => none
    | some raw =>
      let line := trimChars raw
      if isCommentLine line then none
      else if countChar '\x22' line % 2 ≠ 0 then
        some (str "Unterminated string on line " ++ natToChars (lineNum + 1) ++ str ": " ++ line,
              str "Close all string quotes on line " ++ natToChars (lineNum + 1))
      else none)
  { valid := (checked.map Prod.fst).isEmpty,
    errors := checked.map Prod.fst,
    suggestions := checked.map Prod.snd }

/-- The regex test `/.*?->.*?:.*$/`: some `->` is followed, possibly later,
by a `:` — equivalently the text after the first `->` contains a `:`. -/
def arrowThenColon (line : Msg) : Bool :=
  match afterFirstSub (str "->") line with
  | some rest => includesStr rest (str ":")
  | none => false

/-- The error/suggestion pairs contributed by one line of
`checkCommonSyntaxErrors` (the two checks are independent `if`s in the
source). -/
def commonLineChecks (line : Msg) (lineNum : Nat) : List (Msg × Msg) :=
  (if includesStr line (str "---") && !includesStr line (str "-->") &&
      !includesStr line (str "--") then
    [(str "Invalid arrow syntax on line " ++ natToChars (lineNum + 1) ++ str ": " ++ line,
      str "Use \x22-->\x22 for relationships, not \x22---\x22")]
  else []) ++
  (if includesStr line (str "->") && includesStr line (str ":") &&
      !arrowThenColon line then
    [(str "Malformed message syntax on line " ++ natToChars (lineNum + 1) ++ str ": " ++ line,
      str "Use format: \x22A -> B : message\x22 for labeled arrows")]
  else [])

/-- Function `checkCommonSyntaxErrors` of `src/lib/plantuml.ts`. -/
def checkCommonSyntaxErrors (text : Msg) : Verdict :=
  let lines := splitLines text
  let checked := (List.range lines.length).flatMap (fun lineNum =>
    match lines.get? lineNum with
    | none => []
    | some raw =>
      let line := trimChars raw
      if line.isEmpty || isCommentLine line then []
      else commonLineChecks line lineNum)
  { valid := (checked.map Prod.fst).isEmpty,
    errors := checked.map Prod.fst,
    suggestions := checked.map Prod.snd }

/-- JavaScript regex `\w`. -/
def isWordChar (c : Char) : Bool :=
  ('a' ≤ c && c ≤ 'z') || ('A' ≤ c && c ≤ 'Z') || ('0' ≤ c && c ≤ '9') || c = '_'

/-- Does the list start with a `\w` character? -/
def headIsWord : Msg → Bool
  | [] => false
  | c :: _ => isWordChar c

/-- The test `line.match(/\w(->|-->)\w/) || line.match(/\w(<-|<--)\w/)`. -/
def missingSpaceArrow : Msg → Bool
  | [] => false
  | c :: rest =>
    (isWordChar c &&
      ((isPrefixList (str "->") rest && headIsWord (List.drop 2 rest)) ||
       (isPrefixList (str "-->") rest && headIsWord (List.drop 3 rest)) ||
       (isPrefixList (str "<-") rest && headIsWord (List.drop 2 rest)) ||
       (isPrefixList (str "<--") rest && headIsWord (List.drop 3 rest)))) ||
    missingSpaceArrow rest

/-- The error/suggestion pairs contributed by one line of
`checkAdvancedSyntaxErrors` (every failing check of that line, in source
order). -/
def advancedLineChecks (text line : Msg) (lineNum : Nat) : List (Msg × Msg) :=
  (if countChar '\x27' line % 2 ≠ 0 && !isPrefixList (str "\x27") line then
    [(str "Unmatched single quote on line " ++ natToChars (lineNum + 1) ++ str ": " ++ line,
      str "Close all single quotes on line " ++ natToChars (lineNum + 1))]
  else []) ++
  (if includesStr line (str "[") && !includesStr line (str "]") then
    [(str "Unclosed component bracket on line " ++ natToChars (lineNum + 1) ++ str ": " ++ line,
      str "Close component brackets with ]")]
  else []) ++
  (if includesStr line (str "(") && includesStr line (str "use") &&
      !includesStr line (str ")") then
    [(str "Unclosed use case parenthesis on line " ++ natToChars (lineNum + 1) ++ str ": " ++ line,
      str "Close use case parentheses with )")]
  else []) ++
  (if includesStr line (str "class ") && includesStr line (str "\x7b") &&
      !includesStr text (str "\x7d") then
    [(str "Class definition missing closing brace: " ++ line,
      str "Close class definitions with \x7d")]
  else []) ++
  (if (includesStr line (str "participant") || includesStr line (str "actor")) &&
      includesStr line (str "\x22") && countChar '\x22' line % 2 ≠ 0 then
    [(str "Unclosed quotes in participant/actor definition on line " ++
        natToChars (lineNum + 1) ++ str ": " ++ line,
      str "Close all quotes in participant/actor names")]
  else []) ++
  (if includesStr line (str "-->") && includesStr line (str "<--") then
    [(str "Invalid bidirectional arrow syntax on line " ++ natToChars (lineNum + 1) ++
        str ": " ++ line,
      str "Use separate lines for bidirectional relationships")]
  else []) ++
  (if missingSpaceArrow line then
    [(str "Missing spaces around arrows on line " ++ natToChars (lineNum + 1) ++ str ": " ++ line,
      str "Add spaces around arrows: \x22A -> B\x22 not \x22A->B\x22")]
  else [])

/-- Function `checkAdvancedSyntaxErrors` of `src/lib/plantuml.ts`. -/
def checkAdvancedSyntaxErrors (text : Msg) : Verdict :=
  let lines := splitLines text
  let checked := (List.range lines.length).flatMap (fun lineNum =>
    match lines.get? lineNum with
    | none => []
    | some raw =>
      let line := trimChars raw
      if line.isEmpty || isCommentLine line then []
      else advancedLineChecks text line lineNum)
  { valid := (checked.map Prod.fst).isEmpty,
    errors := checked.map Prod.fst,
    suggestions := checked.map Prod.snd }

/-- JavaScript `text.toLowerCase()` (ASCII case folding, all that matters
for the keywords the validator looks for). -/
def toLowerList (s : Msg) : Msg := s.map Char.toLower

/-- Function `validateDiagramTypeSpecificSyntax` of `src/lib/plantuml.ts`. -/
def validateDiagramTypeSpecificSyntax (text : Msg) (diagramType : DiagramType) : Verdict :=
  let lowerText := toLowerList text
  let checked : List (Msg × Msg) :=
    match diagramType with
    | .component =>
      if !includesStr lowerText (str "[") || !includesStr lowerText (str "]") then
        [(str "Component diagram missing [Component] syntax",
          str "Use [Component Name] syntax for components, e.g., [User Interface], [Database]")]
      else []
    | .cls =>
      if !includesStr lowerText (str "class ") || !includesStr lowerText (str "\x7b") then
        [(str "Class diagram missing proper class syntax",
          str "Use \x22class ClassName \x7b \x7d\x22 syntax with attributes and methods inside braces")]
      else []
    | .sequence =>
      (if !includesStr lowerText (str "participant") && !includesStr lowerText (str "actor") then
        [(str "Sequence diagram missing participants or actors",
          str "Define participants using \x22participant Name\x22 or \x22actor Name\x22 syntax")]
      else []) ++
      (if !includesStr lowerText (str "->") && !includesStr lowerText (str "->>") then
        [(str "Sequence diagram missing message arrows",
          str "Use \x22->\x22 for synchronous or \x22->>\x22 for asynchronous messages")]
      else [])
    | .usecase =>
      (if !includesStr lowerText (str "actor") then
        [(str "Use case diagram missing actors",
          str "Define actors using \x22actor ActorName\x22 syntax")]
      else []) ++
      (if !includesStr lowerText (str "(") || !includesStr lowerText (str ")") then
        [(str "Use case diagram missing use case syntax",
          str "Define use cases using \x22(Use Case Name)\x22 syntax")]
      else [])
    | .activity =>
      (if !includesStr lowerText (str ":") || !includesStr lowerText (str ";") then
        [(str "Activity diagram missing activity syntax",
          str "Define activities using \x22:activity name;\x22 syntax")]
      else []) ++
      (if !includesStr lowerText (str "start") && !includesStr lowerText (str "[*]") then
        [(str "Activity diagram missing start point",
          str "Add \x22start\x22 or \x22[*]\x22 to indicate the beginning of the activity flow")]
      else [])
    | .state =>
      if !includesStr lowerText (str "state") && !includesStr lowerText (str "[*]") then
        [(str "State diagram missing state syntax",
          str "Use \x22state StateName\x22 syntax or \x22[*]\x22 for start/end states")]
      else []
    | .deployment =>
      if !includesStr lowerText (str "node") then
        [(str "Deployment diagram missing node syntax",
          str "Use \x22node \\\x22Node Name\\\x22 \x7b \x7d\x22 syntax for deployment nodes")]
      else []
  { valid := (checked.map Prod.fst).isEmpty,
    errors := checked.map Prod.fst,
    suggestions := checked.map Prod.snd }

/-- Function `validatePlantUMLForAI` of `src/lib/plantuml.ts`: the Syntax Validator. -/
def validatePlantUMLForAI (plantumlText : Msg) (diagramType : Option DiagramType := none) :
    Verdict :=
  if (trimChars plantumlText).isEmpty then
    { valid := false,
      errors := [str "PlantUML text cannot be empty"],
      suggestions :=
        [str "Generate a complete PlantUML diagram starting with @startuml and ending with @enduml"] }
  else
    let hasStart := includesStr plantumlText (str "@startuml")
    let hasEnd := includesStr plantumlText (str "@enduml")
    let startErrs :=
      (if hasStart then ([], []) else
        ([str "Missing @startuml directive"], [str "Start your PlantUML code with @startuml"]))
    let endErrs :=
      (if hasEnd then ([], []) else
        ([str "Missing @enduml directive"], [str "End your PlantUML code with @enduml"]))
    let orderErrs :=
      (if hasStart && hasEnd &&
          (indexOfSub plantumlText (str "@startuml")).getD 0 ≥
            (indexOfSub plantumlText (str "@enduml")).getD 0 then
        ([str "@startuml must come before @enduml"],
         [str "Place @startuml at the beginning and @enduml at the end"])
      else ([], []))
    let balanceResult := checkBalancedBrackets plantumlText
    let stringResult := checkStringTermination plantumlText
    let syntaxResult := checkCommonSyntaxErrors plantumlText
    let advancedResult := checkAdvancedSyntaxErrors plantumlText
    let typeResult :=
      match diagramType with
      | some dt => validateDiagramTypeSpecificSyntax plantumlText dt
      | none => { valid := true, errors := [], suggestions := [] }
    let errors := startErrs.1 ++ endErrs.1 ++ orderErrs.1 ++
      (if balanceResult.valid then [] else balanceResult.errors) ++
      (if stringResult.valid then [] else stringResult.errors) ++
      (if syntaxResult.valid then [] else syntaxResult.errors) ++
      (if advancedResult.valid then [] else advancedResult.errors) ++
      (if typeResult.valid then [] else typeResult.errors)
    let suggestions := startErrs.2 ++ endErrs.2 ++ orderErrs.2 ++
      (if balanceResult.valid then [] else balanceResult.suggestions) ++
      (if stringResult.valid then [] else stringResult.suggestions) ++
      (if syntaxResult.valid then [] else syntaxResult.suggestions) ++
      (if advancedResult.valid then [] else advancedResult.suggestions) ++
      (if typeResult.valid then [] else typeResult.suggestions)
    { valid := errors.isEmpty, errors := errors, suggestions := suggestions }

/-- The verdict shape of the backward-compatibility wrapper
`validatePlantUML` (no suggestions). -/
structure SimpleVerdict where
  valid : Bool
  errors : List Msg
deriving DecidableEq

/-- Function `validatePlantUML` of `src/lib/plantuml.ts`. -/
def validatePlantUML (plantumlText : Msg) : SimpleVerdict :=
  let result := validatePlantUMLForAI plantumlText
  { valid := result.valid, errors := result.errors }

/-- Constant `MAX_RETRIES` of `src/lib/ai-providers.ts`. -/
def MAX_RETRIES : Nat := 2

/-- Outcome of the external render fetch in `renderPlantUMLWeb`
(the network is an oracle of the environment). -/
inductive FetchOutcome where
  | ok
  | httpError (status : Nat)
  | networkThrow
deriving DecidableEq

/-- Function `renderPlantUMLWeb` of `src/lib/plantuml.ts`, reduced to what the render
validator observes: success, or the thrown `PlantUMLError`'s message. -/
def renderPlantUMLWeb : FetchOutcome → Except Msg Unit
  | .ok => .ok ()
  | .httpError status => .error (str "Failed to render diagram: " ++ natToChars status)
  | .networkThrow => .error (str "Failed to render PlantUML diagram")

/-- Function `validatePlantUMLByRendering` of `src/lib/plantuml.ts`: the Render
Validator, classifying the failure message into error/suggestion pairs. -/
def validatePlantUMLByRendering (outcome : FetchOutcome) : Verdict :=
  match renderPlantUMLWeb outcome with
  | .ok _ => { valid := true, errors := [], suggestions := [] }
  | .error errorMessage =>
    let checked :=
      (if includesStr errorMessage (str "400") then
        [(str "PlantUML server rejected the diagram syntax",
          str "Check for syntax errors, invalid keywords, or malformed diagram structure")]
      else []) ++
      (if includesStr errorMessage (str "syntax") || includesStr errorMessage (str "Syntax") then
        [(str "Syntax error in PlantUML code",
          str "Review PlantUML syntax documentation for the specific diagram type")]
      else []) ++
      (if includesStr errorMessage (str "timeout") || includesStr errorMessage (str "Timeout") then
        [(str "PlantUML rendering timeout - diagram too complex",
          str "Simplify the diagram by reducing the number of elements or relationships")]
      else [])
    let checked :=
      if checked.isEmpty then
        [(str "PlantUML rendering failed: " ++ errorMessage,
          str "Review the entire PlantUML code for syntax errors or invalid constructs")]
      else checked
    { valid := false, errors := checked.map Prod.fst, suggestions := checked.map Prod.snd }

/-- The enum value names of `DiagramType`. -/
def DiagramType.toChars : DiagramType → Msg
  | .component => str "component"
  | .deployment => str "deployment"
  | .cls => str "class"
  | .sequence => str "sequence"
  | .usecase => str "usecase"
  | .activity => str "activity"
  | .state => str "state"

/-- JavaScript `s.toUpperCase()` (ASCII). -/
def toUpperList (s : Msg) : Msg := s.map Char.toUpper

/-- The `${index + 1}. ${mark} ${entry}` numbering of the retry-context blocks. -/
def numberedItems (mark : Msg) (start : Nat) : List Msg → List Msg
  | [] => []
  | e :: es => (natToChars start ++ str ". " ++ mark ++ str " " ++ e) :: numberedItems mark (start + 1) es

/-- The `• ${entry}` bulleting used in the exhaustion error messages. -/
def bulletItems (l : List Msg) : List Msg := l.map (fun e => str "• " ++ e)

/-- The `{ errors, suggestions }` record kept in `lastValidationResult`. -/
structure Feedback where
  errors : List Msg
  suggestions : List Msg
deriving DecidableEq

/-- Function `getDiagramTypeSpecificInstructions` of `src/lib/ai-providers.ts`.
(The TS `default` branch is unreachable: the switch covers the whole enum.) -/
def getDiagramTypeSpecificInstructions : DiagramType → Msg
  | .component => str "COMPONENT DIAGRAM REQUIREMENTS:\n- MUST use [Component Name] syntax for all components and services\n- Use () syntax for interfaces: (Interface Name)\n- Use --> for dependencies and connections\n- Use ..> for weak dependencies\n- Group related components with rectangle/package if needed\n- Example structure:\n  @startuml\n  [User Interface] --> [Business Logic]\n  [Business Logic] --> [Data Access]\n  [Data Access] --> [Database]\n  @enduml"
  | .deployment => str "DEPLOYMENT DIAGRAM REQUIREMENTS:\n- MUST use node \x22Node Name\x22 syntax for physical nodes/servers\n- Use artifact \x22Artifact Name\x22 syntax for deployable components\n- Show deployment relationships with -->\n- Include hardware/infrastructure components\n- Example structure:\n  @startuml\n  node \x22Web Server\x22 \x7b\n    [Web Application]\n  \x7d\n  node \x22Database Server\x22 \x7b\n    [Database]\n  \x7d\n  [Web Application] --> [Database]\n  @enduml"
  | .cls => str "CLASS DIAGRAM REQUIREMENTS:\n- MUST use class ClassName \x7b \x7d syntax for all classes\n- Include attributes and methods inside braces\n- Use + for public, - for private, # for protected, ~ for package\n- Use --|> for inheritance, --* for composition, --o for aggregation\n- Use --> for simple associations\n- Example structure:\n  @startuml\n  class User \x7b\n    +name: String\n    +email: String\n    +login(): boolean\n  \x7d\n  class Account \x7b\n    -balance: float\n    +deposit(amount): void\n  \x7d\n  User --> Account\n  @enduml"
  | .sequence => str "SEQUENCE DIAGRAM REQUIREMENTS:\n- MUST use participant or actor for all entities\n- Use -> for synchronous messages, ->> for asynchronous\n- Use <-- for return messages\n- Show time progression from top to bottom\n- Use activate/deactivate for object lifelines if needed\n- Example structure:\n  @startuml\n  participant User\n  participant System\n  participant Database\n  User -> System: login(credentials)\n  System -> Database: validate(user)\n  Database --> System: result\n  System --> User: success/failure\n  @enduml"
  | .usecase => str "USE CASE DIAGRAM REQUIREMENTS:\n- MUST use actor for all external entities\n- Use (Use Case Name) syntax for all use cases\n- Use --> for actor-to-usecase associations\n- Use <<include>> and <<extend>> for use case relationships\n- Keep layout clear and readable\n- layout should be horizontal (left to right). actors in the left and right and usecases in between\n- Example structure:\n  @startuml\n  actor User\n  actor Admin\n  (Login) as UC1\n  (View Dashboard) as UC2\n  (Manage Users) as UC3\n  User --> UC1\n  User --> UC2\n  Admin --> UC3\n  UC2 .> UC1 : <<include>>\n  @enduml"
  | .activity => str "ACTIVITY DIAGRAM REQUIREMENTS:\n- MUST use :activity name; syntax for all activities\n- Use start and stop/end for begin and end points\n- Use if (condition?) then (yes) else (no) endif for decisions\n- Use fork and join for parallel processes\n- Show clear workflow progression\n- Example structure:\n  @startuml\n  start\n  :Initialize System;\n  if (User Authenticated?) then (yes)\n    :Load Dashboard;\n  else (no)\n    :Show Login Form;\n    :Validate Credentials;\n  endif\n  :Display Content;\n  stop\n  @enduml"
  | .state => str "STATE DIAGRAM REQUIREMENTS:\n- MUST use state \x22State Name\x22 syntax for all states\n- Use [*] for initial and final states\n- Use --> for state transitions with trigger labels\n- Show clear state changes and conditions\n- Include trigger events and conditions\n- Example structure:\n  @startuml\n  [*] --> Idle\n  Idle --> Active : start\n  Active --> Processing : process\n  Processing --> Active : complete\n  Active --> Idle : stop\n  Processing --> Error : failure\n  Error --> Idle : reset\n  Idle --> [*]\n  @enduml"

/-- Function `createGeneratePrompt` of `src/lib/ai-providers.ts` (the Prompt
Builder); `lastError` carries the previous attempt's error message. -/
def createGeneratePrompt (description : Msg) (diagramType : DiagramType) (attempt : Nat)
    (lastError : Option Msg) (lastValidationResult : Option Feedback) : Msg :=
  let retryContext : Msg :=
    if attempt > 1 && (lastError.isSome || lastValidationResult.isSome) then
      str "\n\n🔄 AUTOMATIC RETRY - ATTEMPT " ++ natToChars attempt ++ str "/" ++
        natToChars MAX_RETRIES ++
      (match lastValidationResult with
       | some v =>
         if v.errors.length > 0 then
           str "\n\n🚨 YOUR PREVIOUS PlantUML CODE HAD THESE VALIDATION ERRORS:\n" ++
           joinSep (str "\n") (numberedItems (str "❌") 1 v.errors) ++
           str "\n\n🛠️  TO FIX THESE ERRORS, YOU MUST:\n" ++
           joinSep (str "\n") (numberedItems (str "✅") 1 v.suggestions) ++
           str "\n\n⚠️  CRITICAL: You MUST address every single error listed above in your new attempt."
         else []
       | none => []) ++
      (match lastError with
       | some m => str "\n\n💥 Previous generation error: " ++ m
       | none => []) ++
      str "\n\n🎯 RETRY INSTRUCTIONS - FOLLOW EXACTLY:\n1. 🔍 ANALYZE: Review each validation error above carefully\n2. 🛠️  IMPLEMENT: Apply every single suggested fix listed above\n3. ✅ VERIFY: Ensure your PlantUML code addresses all validation errors\n4. 🎨 SYNTAX: Use proper " ++
      DiagramType.toChars diagramType ++
      str " diagram syntax only\n5. 🔗 STRUCTURE: Ensure @startuml and @enduml tags are present\n6. 📝 CLARITY: Use simple, clear names without special characters\n7. 🔒 VALIDATION: Double-check bracket/parentheses matching\n8. 📋 COMPLETION: Generate complete, syntactically correct PlantUML\n\n⭐ SUCCESS CRITERIA: Your PlantUML must pass validation on this attempt!"
    else []
  str "You are an expert software architect and PlantUML specialist. Based on the following description, create a detailed architecture explanation and generate PlantUML code.\n\nDescription: " ++
  description ++
  str " \nCreate a comprehensive markdown description with headings, bullet points, bold, italic etc where appropriate." ++
  retryContext ++
  str "\n\nCRITICAL INSTRUCTIONS:\n1. You MUST create a " ++
  toUpperList (DiagramType.toChars diagramType) ++
  str " diagram - not any other type!\n2. Use ONLY the syntax specific to " ++
  DiagramType.toChars diagramType ++
  str " diagrams as specified below\n3. Follow PlantUML " ++
  DiagramType.toChars diagramType ++
  str " diagram conventions exactly\n4. Provide a clear, detailed explanation of the architecture\n5. Generate clean, well-structured PlantUML code that renders correctly\n\n" ++
  getDiagramTypeSpecificInstructions diagramType ++
  str "\n\nGENERAL SYNTAX REQUIREMENTS: \n- Always start with @startuml and end with @enduml\n- Use simple, clear names without special characters\n- Ensure all syntax is valid PlantUML\n- Keep the diagram focused and readable\n- NO themes, NO skinparam, NO advanced styling\n\nDESIGN REQUIREMENTS:\n- Create a clean, professional diagram\n- Use clear, readable component/entity names\n- Implement proper visual hierarchy\n- Show meaningful relationships and flows\n- Focus on structure and clarity\n\nRemember: You are creating a " ++
  toUpperList (DiagramType.toChars diagramType) ++
  str " diagram. Use the specific syntax and conventions for " ++
  DiagramType.toChars diagramType ++
  str " diagrams only!"

/-- Function `createEditPrompt` of `src/lib/ai-providers.ts`. -/
def createEditPrompt (existingPlantUML : Msg) (editInstructions : Msg) (attempt : Nat)
    (lastError : Option Msg) (lastValidationResult : Option Feedback) : Msg :=
  let retryContext : Msg :=
    if attempt > 1 && (lastError.isSome || lastValidationResult.isSome) then
      str "\n\n🔄 AUTOMATIC EDIT RETRY - ATTEMPT " ++ natToChars attempt ++ str "/" ++
        natToChars MAX_RETRIES ++
      (match lastValidationResult with
       | some v =>
         if v.errors.length > 0 then
           str "\n\n🚨 YOUR PREVIOUS EDITED PlantUML CODE HAD THESE VALIDATION ERRORS:\n" ++
           joinSep (str "\n") (numberedItems (str "❌") 1 v.errors) ++
           str "\n\n🛠️  TO FIX THESE EDIT ERRORS, YOU MUST:\n" ++
           joinSep (str "\n") (numberedItems (str "✅") 1 v.suggestions) ++
           str "\n\n⚠️  CRITICAL: You MUST address every single error listed above in your edited code."
         else []
       | none => []) ++
      (match lastError with
       | some m => str "\n\n💥 Previous edit error: " ++ m
       | none => []) ++
      str "\n\n🎯 EDIT RETRY INSTRUCTIONS - FOLLOW EXACTLY:\n1. 🔍 ANALYZE: Review each validation error above carefully\n2. 🛠️  IMPLEMENT: Apply every single suggested fix listed above\n3. ✅ VERIFY: Ensure your edited PlantUML code addresses all validation errors\n4. 🎨 MAINTAIN: Keep existing diagram structure while applying requested changes\n5. 🔗 STRUCTURE: Ensure @startuml and @enduml tags remain intact\n6. 📝 CLARITY: Use simple, clear names without special characters\n7. 🔒 VALIDATION: Double-check bracket/parentheses matching\n8. 📋 COMPLETION: Generate complete, syntactically correct edited PlantUML\n\n⭐ EDIT SUCCESS CRITERIA: Your edited PlantUML must pass validation on this attempt!"
    else []
  str "You are an expert software architect. Modify the following PlantUML diagram based on the edit instructions.\n\nCurrent PlantUML code:\n" ++
  existingPlantUML ++
  str "\n\nEdit instructions: " ++
  editInstructions ++
  retryContext ++
  str "\n\nInstructions:\n1. Carefully analyze the existing PlantUML code\n2. Apply the requested changes while maintaining the diagram\x27s integrity\n3. Preserve existing elements unless specifically asked to remove them\n4. Ensure the modified code is syntactically correct\n5. Provide a clear summary of the specific changes made\n6. CRITICAL: Ensure the modified PlantUML code is syntactically correct and can be rendered without errors\n7. DESIGN REQUIREMENTS: Maintain or improve the clean design with:\n   - Use basic PlantUML syntax only - NO !theme, NO skinparam, NO advanced styling\n   - Maintain consistent spacing and alignment\n   - Use clear, readable component names\n   - Preserve proper visual hierarchy\n   - Keep styling simple and focus on structure over appearance\n   - Use proper grouping and layout for clarity\n\nEnsure the modified PlantUML code is syntactically correct and follows PlantUML conventions."

/-- A thrown JavaScript value: either this application's `AIError`
(`instanceof AIError` holds) or a plain `Error`.  The model SDK throws
plain errors, never this application's `AIError` class. -/
inductive Thrown where
  | aiError (message : Msg)
  | jsError (message : Msg)
deriving DecidableEq

/-- The `error.message` accessor. -/
def Thrown.message : Thrown → Msg
  | .aiError m => m
  | .jsError m => m

/-- The structured model reply of `DiagramGenerationSchema`; `diagramType`
is `none` when the model leaves the field unset/empty (the `||` fallback in
the source guards that case). -/
structure GenObject where
  description : Msg
  plantuml : Msg
  diagramType : Option DiagramType
deriving DecidableEq

/-- The value returned by a successful `generateDiagram` call. -/
structure GenResult where
  description : Msg
  plantuml : Msg
  diagramType : DiagramType
deriving DecidableEq

/-- The environment of a `generateDiagram` call: credential presence, the
generative model (`generateObject`, throwing plain `Error`s on failure) and
the render fetch, both free to behave differently on each attempt. -/
structure GenEnv where
  apiKeyPresent : Bool
  modelCall : Nat → Msg → Except Msg GenObject
  fetch : Nat → Msg → FetchOutcome

/-- The mutable locals of the retry loop: `lastError`,
`lastValidationResult`, `lastPlantUMLAttempt`. -/
structure GenState where
  lastError : Option Thrown
  lastValidation : Option Feedback
  lastPlantUML : Msg
deriving DecidableEq

/-- Result of one iteration of the `generateDiagram` try-block: updated
locals, the prompts sent to the model (`[]` or one), and the outcome. -/
structure GenStep where
  state : GenState
  prompts : List Msg
  outcome : Except Thrown GenResult

/-- One iteration of the `generateDiagram` try-block. -/
def generateAttempt (env : GenEnv) (description : Msg) (diagramType : DiagramType)
    (attempt : Nat) (st : GenState) : GenStep :=
  if env.apiKeyPresent = false then
    { state := st, prompts := [],
      outcome := .error (.aiError (str "Google Generative AI API key is missing")) }
  else
    let prompt := createGeneratePrompt description diagramType attempt
      (st.lastError.map Thrown.message) st.lastValidation
    match env.modelCall attempt prompt with
    | .error m => { state := st, prompts := [prompt], outcome := .error (.jsError m) }
    | .ok obj =>
      let st := { st with lastPlantUML := obj.plantuml }
      let syntaxValidation := validatePlantUMLForAI obj.plantuml (some diagramType)
      if syntaxValidation.valid = false then
        { state := { st with
            lastValidation :=
              some (Feedback.mk syntaxValidation.errors syntaxValidation.suggestions) },
          prompts := [prompt],
          outcome := .error (.jsError (str "PlantUML syntax validation failed: " ++
            joinSep (str ", ") syntaxValidation.errors)) }
      else
        let renderValidation := validatePlantUMLByRendering (env.fetch attempt obj.plantuml)
        if renderValidation.valid = false then
          { state := { st with
              lastValidation :=
                some (Feedback.mk renderValidation.errors
                  (renderValidation.suggestions ++
                    [str "The syntax validation passed, but rendering failed - check for PlantUML server compatibility",
                     str "Ensure all diagram elements are properly formatted for the PlantUML server"])) },
            prompts := [prompt],
            outcome := .error (.jsError (str "PlantUML render validation failed: " ++
              joinSep (str ", ") renderValidation.errors)) }
        else
          { state := st, prompts := [prompt],
            outcome := .ok { description := obj.description, plantuml := obj.plantuml,
                             diagramType := obj.diagramType.getD diagramType } }

/-- The `instanceof AIError && !message.includes(...)` non-retriable test of
the `generateDiagram` catch-block. -/
def isNonRetriableGen (e : Thrown) : Bool :=
  match e with
  | .aiError m =>
    !includesStr m (str "Invalid PlantUML") &&
    !includesStr m (str "PlantUML rendering failed") &&
    !includesStr m (str "PlantUML validation failed") &&
    !includesStr m (str "PlantUML syntax validation failed") &&
    !includesStr m (str "PlantUML render validation failed")
  | .jsError _ => false

/-- The detailed message of the `AIError` thrown when all `generateDiagram`
attempts fail. -/
def generateExhaustMsg (st : GenState) : Msg :=
  str "Failed to generate valid PlantUML after " ++ natToChars MAX_RETRIES ++ str " attempts." ++
  (match st.lastValidation with
   | some v =>
     str "\n\nFinal validation errors:\n" ++ joinSep (str "\n") (bulletItems v.errors) ++
     str "\n\nSuggested fixes:\n" ++ joinSep (str "\n") (bulletItems v.suggestions)
   | none => []) ++
  (if st.lastPlantUML.isEmpty then []
   else str "\n\nLast PlantUML attempt:\n" ++ st.lastPlantUML)

/-- The observable behaviour of a `generateDiagram` call: outcome, the
prompts passed to the model (one per model invocation), final locals. -/
structure GenRun where
  outcome : Except Thrown GenResult
  prompts : List Msg
  final : GenState

/-- The `for (attempt = 1; attempt <= MAX_RETRIES; attempt++)` loop of
`generateDiagram` with its catch-block, as fuelled recursion (the fuel is
`MAX_RETRIES - attempt + 1`; the fuel-0 fallback is the source's
unreachable `Unexpected error in retry loop` throw). -/
def generateDiagramLoop (env : GenEnv) (description : Msg) (diagramType : DiagramType) :
    Nat → Nat → GenState → GenRun
  | 0, _, st =>
    { outcome := .error (.aiError (str "Unexpected error in retry loop")),
      prompts := [], final := st }
  | fuel + 1, attempt, st =>
    let step := generateAttempt env description diagramType attempt st
    match step.outcome with
    | .ok r => { outcome := .ok r, prompts := step.prompts, final := step.state }
    | .error e =>
      let st2 : GenState :=
        { lastError := some e, lastValidation := step.state.lastValidation,
          lastPlantUML := step.state.lastPlantUML }
      if isNonRetriableGen e then
        { outcome := .error e, prompts := step.prompts, final := st2 }
      else if attempt = MAX_RETRIES then
        { outcome := .error (.aiError (generateExhaustMsg st2)),
          prompts := step.prompts, final := st2 }
      else
        let rest := generateDiagramLoop env description diagramType fuel (attempt + 1) st2
        { outcome := rest.outcome, prompts := step.prompts ++ rest.prompts, final := rest.final }

/-- Function `generateDiagram` of `src/lib/ai-providers.ts`. -/
def generateDiagram (env : GenEnv) (description : Msg)
    (diagramType : DiagramType := .component) : GenRun :=
  generateDiagramLoop env description diagramType MAX_RETRIES 1
    { lastError := none, lastValidation := none, lastPlantUML := [] }

/-- The structured model reply of `DiagramEditSchema`. -/
structure EditObject where
  plantuml : Msg
  changes : Msg
deriving DecidableEq

/-- The value returned by a successful `editDiagram` call. -/
structure EditResult where
  plantuml : Msg
  changes : List Msg
deriving DecidableEq

/-- The environment of an `editDiagram` call. -/
structure EditEnv where
  apiKeyPresent : Bool
  modelCall : Nat → Msg → Except Msg EditObject
  fetch : Nat → Msg → FetchOutcome

/-- Result of one iteration of the `editDiagram` try-block. -/
structure EditStep where
  state : GenState
  prompts : List Msg
  outcome : Except Thrown EditResult

/-- One iteration of the `editDiagram` try-block (syntax validation runs
without a diagram kind here). -/
def editAttempt (env : EditEnv) (existingPlantUML editInstructions : Msg)
    (attempt : Nat) (st : GenState) : EditStep :=
  if env.apiKeyPresent = false then
    { state := st, prompts := [],
      outcome := .error (.aiError (str "Google Generative AI API key is missing")) }
  else
    let prompt := createEditPrompt existingPlantUML editInstructions attempt
      (st.lastError.map Thrown.message) st.lastValidation
    match env.modelCall attempt prompt with
    | .error m => { state := st, prompts := [prompt], outcome := .error (.jsError m) }
    | .ok obj =>
      let st := { st with lastPlantUML := obj.plantuml }
      let syntaxValidation := validatePlantUMLForAI obj.plantuml
      if syntaxValidation.valid = false then
        { state := { st with
            lastValidation :=
              some (Feedback.mk syntaxValidation.errors syntaxValidation.suggestions) },
          prompts := [prompt],
          outcome := .error (.jsError (str "PlantUML syntax validation failed: " ++
            joinSep (str ", ") syntaxValidation.errors)) }
      else
        let renderValidation := validatePlantUMLByRendering (env.fetch attempt obj.plantuml)
        if renderValidation.valid = false then
          { state := { st with
              lastValidation :=
                some (Feedback.mk renderValidation.errors
                  (renderValidation.suggestions ++
                    [str "The syntax validation passed, but rendering failed - check for PlantUML server compatibility",
                     str "Ensure all diagram elements are properly formatted for the PlantUML server"])) },
            prompts := [prompt],
            outcome := .error (.jsError (str "PlantUML render validation failed: " ++
              joinSep (str ", ") renderValidation.errors)) }
        else
          { state := st, prompts := [prompt],
            outcome := .ok { plantuml := obj.plantuml, changes := [obj.changes] } }

/-- The non-retriable test of the `editDiagram` catch-block (three message
patterns instead of five). -/
def isNonRetriableEdit (e : Thrown) : Bool :=
  match e with
  | .aiError m =>
    !includesStr m (str "PlantUML validation failed") &&
    !includesStr m (str "PlantUML syntax validation failed") &&
    !includesStr m (str "PlantUML render validation failed")
  | .jsError _ => false

/-- The detailed message of the `AIError` thrown when all `editDiagram`
attempts fail. -/
def editExhaustMsg (st : GenState) : Msg :=
  str "Failed to edit PlantUML after " ++ natToChars MAX_RETRIES ++ str " attempts." ++
  (match st.lastValidation with
   | some v =>
     str "\n\nFinal validation errors:\n" ++ joinSep (str "\n") (bulletItems v.errors) ++
     str "\n\nSuggested fixes:\n" ++ joinSep (str "\n") (bulletItems v.suggestions)
   | none => []) ++
  (if st.lastPlantUML.isEmpty then []
   else str "\n\nLast PlantUML attempt:\n" ++ st.lastPlantUML)

/-- The observable behaviour of an `editDiagram` call. -/
structure EditRun where
  outcome : Except Thrown EditResult
  prompts : List Msg
  final : GenState

/-- The retry loop of `editDiagram`. -/
def editDiagramLoop (env : EditEnv) (existingPlantUML editInstructions : Msg) :
    Nat → Nat → GenState → EditRun
  | 0, _, st =>
    { outcome := .error (.aiError (str "Unexpected error in edit retry loop")),
      prompts := [], final := st }
  | fuel + 1, attempt, st =>
    let step := editAttempt env existingPlantUML editInstructions attempt st
    match step.outcome with
    | .ok r => { outcome := .ok r, prompts := step.prompts, final := step.state }
    | .error e =>
      let st2 : GenState :=
        { lastError := some e, lastValidation := step.state.lastValidation,
          lastPlantUML := step.state.lastPlantUML }
      if isNonRetriableEdit e then
        { outcome := .error e, prompts := step.prompts, final := st2 }
      else if attempt = MAX_RETRIES then
        { outcome := .error (.aiError (editExhaustMsg st2)),
          prompts := step.prompts, final := st2 }
      else
        let rest := editDiagramLoop env existingPlantUML editInstructions fuel (attempt + 1) st2
        { outcome := rest.outcome, prompts := step.prompts ++ rest.prompts, final := rest.final }

/-- Function `editDiagram` of `src/lib/ai-providers.ts`. -/
def editDiagram (env : EditEnv) (existingPlantUML editInstructions : Msg) : EditRun :=
  editDiagramLoop env existingPlantUML editInstructions MAX_RETRIES 1
    { lastError := none, lastValidation := none, lastPlantUML := [] }

/-- The parsed JSON body of an edit API request; `none` models an absent or
non-string field. -/
structure EditRequestBody where
  plantuml : Option Msg
  editInstructions : Option Msg

/-- The JSON response of the edit route: HTTP status, optional `error`
message, optional `validationErrors`, optional success payload. -/
structure EditRouteResponse where
  status : Nat
  error : Option Msg
  validationErrors : Option (List Msg)
  result : Option EditResult
deriving DecidableEq

/-- The observable behaviour of one edit route invocation: the response and
whether `editDiagram` was invoked. -/
structure EditRouteRun where
  response : EditRouteResponse
  editCalled : Bool
deriving DecidableEq

/-- The `POST` handler of the edit API route (`app/api/edit/route.ts`).
Thrown `editDiagram` errors are mapped by the handler's catch-block; the
`PlantUMLError` branch of that catch is unreachable here because
`editDiagram` only ever propagates `AIError`s or plain `Error`s. -/
def editRoutePOST (env : EditEnv) (body : EditRequestBody) : EditRouteRun :=
  if env.apiKeyPresent = false then
    { response :=
        { status := 500,
          error := some (str "AI service not configured. Please check environment variables."),
          validationErrors := none, result := none },
      editCalled := false }
  else
    match body.plantuml with
    | none =>
      { response :=
          { status := 400,
            error := some (str "PlantUML code is required and must be a string"),
            validationErrors := none, result := none },
        editCalled := false }
    | some plantuml =>
      if plantuml.isEmpty then
        { response :=
            { status := 400,
              error := some (str "PlantUML code is required and must be a string"),
              validationErrors := none, result := none },
          editCalled := false }
      else
        match body.editInstructions with
        | none =>
          { response :=
              { status := 400,
                error := some (str "Edit instructions are required and must be a string"),
                validationErrors := none, result := none },
            editCalled := false }
        | some editInstructions =>
          if editInstructions.isEmpty then
            { response :=
                { status := 400,
                  error := some (str "Edit instructions are required and must be a string"),
                  validationErrors := none, result := none },
              editCalled := false }
          else if (trimChars editInstructions).isEmpty then
            { response :=
                { status := 400,
                  error := some (str "Edit instructions cannot be empty"),
                  validationErrors := none, result := none },
              editCalled := false }
          else if 2000 < editInstructions.length then
            { response :=
                { status := 400,
                  error := some (str "Edit instructions are too long (maximum 2000 characters)"),
                  validationErrors := none, result := none },
              editCalled := false }
          else
            let validation := validatePlantUML plantuml
            if validation.valid = false then
              { response :=
                  { status := 400,
                    error := some (str "Invalid PlantUML code provided"),
                    validationErrors := some validation.errors, result := none },
                editCalled := false }
            else
              match (editDiagram env (trimChars plantuml) (trimChars editInstructions)).outcome with
              | .ok result =>
                { response :=
                    { status := 200, error := none,
                      validationErrors := none, result := some result },
                  editCalled := true }
              | .error e =>
                match e with
                | .aiError m =>
                  if includesStr m (str "after 4 attempts") then
                    { response :=
                        { status := 502,
                          error := some (str "Failed to generate valid PlantUML after multiple editing attempts. The AI is having trouble creating proper syntax. Please try a different edit instruction or try again later."),
                          validationErrors := none, result := none },
                      editCalled := true }
                  else
                    { response :=
                        { status := 502,
                          error := some (str "AI service error: " ++ m),
                          validationErrors := none, result := none },
                      editCalled := true }
                | .jsError m =>
                  if includesStr m (str "API key") then
                    { response :=
                        { status := 500,
                          error := some (str "AI service configuration error"),
                          validationErrors := none, result := none },
                      editCalled := true }
                  else
                    { response :=
                        { status := 500,
                          error := some (str "Internal server error while editing diagram"),
                          validationErrors := none, result := none },
                      editCalled := true }

/-- A well-formed component diagram used in concrete checks below. -/
def goodText : Msg := str "@startuml\n[A] --> [B]\n@enduml"

/-- A syntactically invalid diagram: the `(` on line 2 is never closed. -/
def badText : Msg := str "@startuml\nfoo(\n@enduml"

/-- A model reply carrying the invalid `badText`. -/
def objBad : GenObject :=
  { description := str "d", plantuml := badText, diagramType := some .component }

/-- Environment whose model always answers with a valid component diagram. -/
def envOkGen : GenEnv :=
  { apiKeyPresent := true,
    modelCall := fun _ _ =>
      .ok { description := str "d", plantuml := goodText, diagramType := some .component },
    fetch := fun _ _ => .ok }

/-- Environment whose model reports no diagram kind. -/
def envOmitKind : GenEnv :=
  { apiKeyPresent := true,
    modelCall := fun _ _ =>
      .ok { description := str "d", plantuml := goodText, diagramType := none },
    fetch := fun _ _ => .ok }

/-- Environment whose model reports `sequence` although the caller asked for
a `component` diagram (the text itself passes component validation). -/
def envContradictKind : GenEnv :=
  { apiKeyPresent := true,
    modelCall := fun _ _ =>
      .ok { description := str "d", plantuml := goodText, diagramType := some .sequence },
    fetch := fun _ _ => .ok }

/-- Environment whose model always answers with the invalid `badText`. -/
def envSyntaxFailGen : GenEnv :=
  { apiKeyPresent := true, modelCall := fun _ _ => .ok objBad, fetch := fun _ _ => .ok }

/-- Environment whose model invocation fails at the network level on the
first attempt and succeeds on the second. -/
def envNetworkFirst : GenEnv :=
  { apiKeyPresent := true,
    modelCall := fun a _ =>
      if a = 1 then .error (str "fetch failed: network error")
      else .ok { description := str "d", plantuml := goodText, diagramType := some .component },
    fetch := fun _ _ => .ok }

/-- Environment with the model credential missing. -/
def envNoKey : GenEnv :=
  { apiKeyPresent := false, modelCall := fun _ _ => .error (str "unused"),
    fetch := fun _ _ => .ok }

/-- Edit environment whose model always answers with a valid diagram. -/
def envOkEdit : EditEnv :=
  { apiKeyPresent := true,
    modelCall := fun _ _ => .ok { plantuml := goodText, changes := str "Added B" },
    fetch := fun _ _ => .ok }

/-- Edit environment whose model always answers with the invalid `badText`. -/
def envEditFail : EditEnv :=
  { apiKeyPresent := true,
    modelCall := fun _ _ => .ok { plantuml := badText, changes := str "c" },
    fetch := fun _ _ => .ok }

/-- An edit request whose existing PlantUML is syntactically invalid (the
`[` before `A` is never closed) but whose fields pass the presence and
length checks. -/
def badRouteBody : EditRequestBody :=
  { plantuml := some (str "@startuml\n[A --> [B]\n@enduml"),
    editInstructions := some (str "add a database") }

/-- The prompt built at a given attempt of `generateDiagram` from the
current loop locals. -/
def generatePromptOf (d : Msg) (dt : DiagramType) (attempt : Nat) (st : GenState) : Msg :=
  createGeneratePrompt d dt attempt (st.lastError.map Thrown.message) st.lastValidation

/-- The prompt built at a given attempt of `editDiagram` from the current
loop locals. -/
def editPromptOf (pl instr : Msg) (attempt : Nat) (st : GenState) : Msg :=
  createEditPrompt pl instr attempt (st.lastError.map Thrown.message) st.lastValidation

theorem isPrefixList_refl (l : Msg) : isPrefixList l l = true := by
  induction l with
  | nil => rfl
  | cons a as ih => simp [isPrefixList, ih]

theorem isPrefixList_append {p a : Msg} (b : Msg) (h : isPrefixList p a = true) :
    isPrefixList p (a ++ b) = true := by
  induction p generalizing a with
  | nil => rfl
  | cons x xs ih =>
    cases a with
    | nil => simp [isPrefixList] at h
    | cons y ys =>
      simp only [isPrefixList, Bool.and_eq_true] at h
      simp [isPrefixList, h.1, ih h.2]

theorem isSubList_of_isPrefixList {p s : Msg} (h : isPrefixList p s = true) :
    isSubList p s = true := by
  cases s with
  | nil =>
    cases p with
    | nil => rfl
    | cons x xs => simp [isPrefixList] at h
  | cons c rest => simp [isSubList, h]

theorem isSubList_refl (l : Msg) : isSubList l l = true :=
  isSubList_of_isPrefixList (isPrefixList_refl l)

theorem isSubList_nil (s : Msg) : isSubList [] s = true := by
  cases s with
  | nil => rfl
  | cons c rest => simp [isSubList, isPrefixList]

theorem isSubList_append_right {p b : Msg} (a : Msg) (h : isSubList p b = true) :
    isSubList p (a ++ b) = true := by
  induction a with
  | nil => simpa using h
  | cons c cs ih => simp [isSubList, ih]

theorem isSubList_append_left {p a : Msg} (b : Msg) (h : isSubList p a = true) :
    isSubList p (a ++ b) = true := by
  induction a with
  | nil =>
    cases p with
    | nil => exact isSubList_nil b
    | cons x xs => simp [isSubList, isPrefixList] at h
  | cons c cs ih =>
    simp only [isSubList, Bool.or_eq_true] at h
    rcases h with h | h
    · simp only [List.cons_append, isSubList, Bool.or_eq_true]
      exact Or.inl (isPrefixList_append b h)
    · simp only [List.cons_append, isSubList, Bool.or_eq_true]
      exact Or.inr (ih h)

theorem isSubList_suffix (a x : Msg) : isSubList x (a ++ x) = true :=
  isSubList_append_right a (isSubList_refl x)

/-- An element substring survives `joinSep` over a mapped list. -/
theorem isSubList_joinSep {α : Type} (sep : Msg) (f : α → Msg) {x : Msg} {a : α}
    (hf : isSubList x (f a) = true) :
    ∀ l : List α, a ∈ l → isSubList x (joinSep sep (l.map f)) = true := by
  intro l
  induction l with
  | nil => intro h; cases h
  | cons b bs ih =>
    intro hmem
    cases bs with
    | nil =>
      rcases List.mem_singleton.mp hmem with rfl
      simpa [joinSep] using hf
    | cons c cs =>
      rcases List.mem_cons.mp hmem with rfl | hmem
      · simp only [List.map, joinSep]
        exact isSubList_append_left _ (isSubList_append_left _ hf)
      · simp only [List.map, joinSep]
        exact isSubList_append_right _ (ih hmem)

/-- An error string survives the `${i + 1}. ${mark} ${e}` numbering and
newline join of the retry-context blocks. -/
theorem isSubList_joinSep_numbered (mark : Msg) {x : Msg} :
    ∀ (l : List Msg) (start : Nat), x ∈ l →
      isSubList x (joinSep (str "\n") (numberedItems mark start l)) = true := by
  intro l
  induction l with
  | nil => intro start h; cases h
  | cons b bs ih =>
    intro start hmem
    cases bs with
    | nil =>
      rcases List.mem_singleton.mp hmem with rfl
      simp only [numberedItems, joinSep]
      exact isSubList_suffix _ x
    | cons c cs =>
      rcases List.mem_cons.mp hmem with rfl | hmem
      · simp only [numberedItems, joinSep]
        exact isSubList_append_left _ (isSubList_append_left _ (isSubList_suffix _ x))
      · simp only [numberedItems, joinSep]
        exact isSubList_append_right _ (ih (start + 1) hmem)

theorem generateAttempt_keyMissing {env : GenEnv} (d : Msg) (dt : DiagramType)
    (a : Nat) (st : GenState) (hk : env.apiKeyPresent = false) :
    generateAttempt env d dt a st =
      { state := st, prompts := [],
        outcome := .error (.aiError (str "Google Generative AI API key is missing")) } := by
  unfold generateAttempt
  rw [hk]
  simp

theorem generateAttempt_modelError {env : GenEnv} {d : Msg} {dt : DiagramType}
    {a : Nat} {st : GenState} {m : Msg} (hk : env.apiKeyPresent = true)
    (hm : env.modelCall a (generatePromptOf d dt a st) = .error m) :
    generateAttempt env d dt a st =
      { state := st, prompts := [generatePromptOf d dt a st],
        outcome := .error (.jsError m) } := by
  unfold generateAttempt generatePromptOf
  rw [hk]
  unfold generatePromptOf at hm
  simp only [Bool.true_eq_false, if_false, hm]

theorem generateAttempt_syntaxFail {env : GenEnv} {d : Msg} {dt : DiagramType}
    {a : Nat} {st : GenState} {obj : GenObject} (hk : env.apiKeyPresent = true)
    (hm : env.modelCall a (generatePromptOf d dt a st) = .ok obj)
    (hs : (validatePlantUMLForAI obj.plantuml (some dt)).valid = false) :
    generateAttempt env d dt a st =
      { state :=
          { lastError := st.lastError,
            lastValidation :=
              some (Feedback.mk (validatePlantUMLForAI obj.plantuml (some dt)).errors
                (validatePlantUMLForAI obj.plantuml (some dt)).suggestions),
            lastPlantUML := obj.plantuml },
        prompts := [generatePromptOf d dt a st],
        outcome := .error (.jsError (str "PlantUML syntax validation failed: " ++
          joinSep (str ", ") (validatePlantUMLForAI obj.plantuml (some dt)).errors)) } := by
  unfold generateAttempt generatePromptOf
  rw [hk]
  unfold generatePromptOf at hm
  simp only [Bool.true_eq_false, if_false, hm, hs, if_true]

theorem generateAttempt_renderFail {env : GenEnv} {d : Msg} {dt : DiagramType}
    {a : Nat} {st : GenState} {obj : GenObject} (hk : env.apiKeyPresent = true)
    (hm : env.modelCall a (generatePromptOf d dt a st) = .ok obj)
    (hs : (validatePlantUMLForAI obj.plantuml (some dt)).valid = true)
    (hr : (validatePlantUMLByRendering (env.fetch a obj.plantuml)).valid = false) :
    generateAttempt env d dt a st =
      { state :=
          { lastError := st.lastError,
            lastValidation :=
              some (Feedback.mk (validatePlantUMLByRendering (env.fetch a obj.plantuml)).errors
                ((validatePlantUMLByRendering (env.fetch a obj.plantuml)).suggestions ++
                  [str "The syntax validation passed, but rendering failed - check for PlantUML server compatibility",
                   str "Ensure all diagram elements are properly formatted for the PlantUML server"])),
            lastPlantUML := obj.plantuml },
        prompts := [generatePromptOf d dt a st],
        outcome := .error (.jsError (str "PlantUML render validation failed: " ++
          joinSep (str ", ") (validatePlantUMLByRendering (env.fetch a obj.plantuml)).errors)) } := by
  unfold generateAttempt generatePromptOf
  rw [hk]
  unfold generatePromptOf at hm
  simp only [Bool.true_eq_false, if_false, hm, hs, hr, if_true]

theorem generateAttempt_ok {env : GenEnv} {d : Msg} {dt : DiagramType}
    {a : Nat} {st : GenState} {obj : GenObject} (hk : env.apiKeyPresent = true)
    (hm : env.modelCall a (generatePromptOf d dt a st) = .ok obj)
    (hs : (validatePlantUMLForAI obj.plantuml (some dt)).valid = true)
    (hr : (validatePlantUMLByRendering (env.fetch a obj.plantuml)).valid = true) :
    generateAttempt env d dt a st =
      { state :=
          { lastError := st.lastError, lastValidation := st.lastValidation,
            lastPlantUML := obj.plantuml },
        prompts := [generatePromptOf d dt a st],
        outcome := .ok { description := obj.description, plantuml := obj.plantuml,
                         diagramType := obj.diagramType.getD dt } } := by
  unfold generateAttempt generatePromptOf
  rw [hk]
  unfold generatePromptOf at hm
  simp only [Bool.true_eq_false, if_false, hm, hs, hr, if_true]

theorem editAttempt_keyMissing {env : EditEnv} (pl instr : Msg)
    (a : Nat) (st : GenState) (hk : env.apiKeyPresent = false) :
    editAttempt env pl instr a st =
      { state := st, prompts := [],
        outcome := .error (.aiError (str "Google Generative AI API key is missing")) } := by
  unfold editAttempt
  rw [hk]
  simp

theorem editAttempt_modelError {env : EditEnv} {pl instr : Msg}
    {a : Nat} {st : GenState} {m : Msg} (hk : env.apiKeyPresent = true)
    (hm : env.modelCall a (editPromptOf pl instr a st) = .error m) :
    editAttempt env pl instr a st =
      { state := st, prompts := [editPromptOf pl instr a st],
        outcome := .error (.jsError m) } := by
  unfold editAttempt editPromptOf
  rw [hk]
  unfold editPromptOf at hm
  simp only [Bool.true_eq_false, if_false, hm]

theorem editAttempt_syntaxFail {env : EditEnv} {pl instr : Msg}
    {a : Nat} {st : GenState} {obj : EditObject} (hk : env.apiKeyPresent = true)
    (hm : env.modelCall a (editPromptOf pl instr a st) = .ok obj)
    (hs : (validatePlantUMLForAI obj.plantuml).valid = false) :
    editAttempt env pl instr a st =
      { state :=
          { lastError := st.lastError,
            lastValidation :=
              some (Feedback.mk (validatePlantUMLForAI obj.plantuml).errors
                (validatePlantUMLForAI obj.plantuml).suggestions),
            lastPlantUML := obj.plantuml },
        prompts := [editPromptOf pl instr a st],
        outcome := .error (.jsError (str "PlantUML syntax validation failed: " ++
          joinSep (str ", ") (validatePlantUMLForAI obj.plantuml).errors)) } := by
  unfold editAttempt editPromptOf
  rw [hk]
  unfold editPromptOf at hm
  simp only [Bool.true_eq_false, if_false, hm, hs, if_true]

theorem editAttempt_renderFail {env : EditEnv} {pl instr : Msg}
    {a : Nat} {st : GenState} {obj : EditObject} (hk : env.apiKeyPresent = true)
    (hm : env.modelCall a (editPromptOf pl instr a st) = .ok obj)
    (hs : (validatePlantUMLForAI obj.plantuml).valid = true)
    (hr : (validatePlantUMLByRendering (env.fetch a obj.plantuml)).valid = false) :
    editAttempt env pl instr a st =
      { state :=
          { lastError := st.lastError,
            lastValidation :=
              some (Feedback.mk (validatePlantUMLByRendering (env.fetch a obj.plantuml)).errors
                ((validatePlantUMLByRendering (env.fetch a obj.plantuml)).suggestions ++
                  [str "The syntax validation passed, but rendering failed - check for PlantUML server compatibility",
                   str "Ensure all diagram elements are properly formatted for the PlantUML server"])),
            lastPlantUML := obj.plantuml },
        prompts := [editPromptOf pl instr a st],
        outcome := .error (.jsError (str "PlantUML render validation failed: " ++
          joinSep (str ", ") (validatePlantUMLByRendering (env.fetch a obj.plantuml)).errors)) } := by
  unfold editAttempt editPromptOf
  rw [hk]
  unfold editPromptOf at hm
  simp only [Bool.true_eq_false, if_false, hm, hs, hr, if_true]

theorem editAttempt_ok {env : EditEnv} {pl instr : Msg}
    {a : Nat} {st : GenState} {obj : EditObject} (hk : env.apiKeyPresent = true)
    (hm : env.modelCall a (editPromptOf pl instr a st) = .ok obj)
    (hs : (validatePlantUMLForAI obj.plantuml).valid = true)
    (hr : (validatePlantUMLByRendering (env.fetch a obj.plantuml)).valid = true) :
    editAttempt env pl instr a st =
      { state :=
          { lastError := st.lastError, lastValidation := st.lastValidation,
            lastPlantUML := obj.plantuml },
        prompts := [editPromptOf pl instr a st],
        outcome := .ok { plantuml := obj.plantuml, changes := [obj.changes] } } := by
  unfold editAttempt editPromptOf
  rw [hk]
  unfold editPromptOf at hm
  simp only [Bool.true_eq_false, if_false, hm, hs, hr, if_true]

theorem bool_eq_true_of_not_eq_false {b : Bool} (h : ¬ b = false) : b = true := by
  cases b with
  | false => exact absurd rfl h
  | true => rfl

theorem generateAttempt_prompts_eq {env : GenEnv} (d : Msg) (dt : DiagramType)
    (a : Nat) (st : GenState) (hk : env.apiKeyPresent = true) :
    (generateAttempt env d dt a st).prompts = [generatePromptOf d dt a st] := by
  rcases hm : env.modelCall a (generatePromptOf d dt a st) with m | obj
  · rw [generateAttempt_modelError hk hm]
  · by_cases hs : (validatePlantUMLForAI obj.plantuml (some dt)).valid = false
    · rw [generateAttempt_syntaxFail hk hm hs]
    · have hs' := bool_eq_true_of_not_eq_false hs
      by_cases hr : (validatePlantUMLByRendering (env.fetch a obj.plantuml)).valid = false
      · rw [generateAttempt_renderFail hk hm hs' hr]
      · rw [generateAttempt_ok hk hm hs' (bool_eq_true_of_not_eq_false hr)]

theorem generateAttempt_prompts_le (env : GenEnv) (d : Msg) (dt : DiagramType)
    (a : Nat) (st : GenState) : (generateAttempt env d dt a st).prompts.length ≤ 1 := by
  by_cases hk : env.apiKeyPresent = false
  · rw [generateAttempt_keyMissing d dt a st hk]
    simp
  · rw [generateAttempt_prompts_eq d dt a st (bool_eq_true_of_not_eq_false hk)]
    simp

theorem generateAttempt_error_jsError {env : GenEnv} {d : Msg} {dt : DiagramType}
    {a : Nat} {st : GenState} {e : Thrown} (hk : env.apiKeyPresent = true)
    (he : (generateAttempt env d dt a st).outcome = .error e) : ∃ m, e = .jsError m := by
  rcases hm : env.modelCall a (generatePromptOf d dt a st) with m | obj
  · rw [generateAttempt_modelError hk hm] at he
    exact ⟨m, (Except.error.injEq _ _).mp he.symm⟩
  · by_cases hs : (validatePlantUMLForAI obj.plantuml (some dt)).valid = false
    · rw [generateAttempt_syntaxFail hk hm hs] at he
      exact ⟨_, (Except.error.injEq _ _).mp he.symm⟩
    · have hs' := bool_eq_true_of_not_eq_false hs
      by_cases hr : (validatePlantUMLByRendering (env.fetch a obj.plantuml)).valid = false
      · rw [generateAttempt_renderFail hk hm hs' hr] at he
        exact ⟨_, (Except.error.injEq _ _).mp he.symm⟩
      · rw [generateAttempt_ok hk hm hs' (bool_eq_true_of_not_eq_false hr)] at he
        exact absurd he (by simp)

theorem generateAttempt_outcome_ok {env : GenEnv} {d : Msg} {dt : DiagramType}
    {a : Nat} {st : GenState} {r : GenResult}
    (h : (generateAttempt env d dt a st).outcome = .ok r) :
    ∃ obj, env.modelCall a (generatePromptOf d dt a st) = .ok obj ∧
      r = { description := obj.description, plantuml := obj.plantuml,
            diagramType := obj.diagramType.getD dt } ∧
      (validatePlantUMLForAI obj.plantuml (some dt)).valid = true ∧
      (validatePlantUMLByRendering (env.fetch a obj.plantuml)).valid = true := by
  by_cases hk : env.apiKeyPresent = false
  · rw [generateAttempt_keyMissing d dt a st hk] at h
    exact absurd h (by simp)
  · have hk' := bool_eq_true_of_not_eq_false hk
    rcases hm : env.modelCall a (generatePromptOf d dt a st) with m | obj
    · rw [generateAttempt_modelError hk' hm] at h
      exact absurd h (by simp)
    · by_cases hs : (validatePlantUMLForAI obj.plantuml (some dt)).valid = false
      · rw [generateAttempt_syntaxFail hk' hm hs] at h
        exact absurd h (by simp)
      · have hs' := bool_eq_true_of_not_eq_false hs
        by_cases hr : (validatePlantUMLByRendering (env.fetch a obj.plantuml)).valid = false
        · rw [generateAttempt_renderFail hk' hm hs' hr] at h
          exact absurd h (by simp)
        · have hr' := bool_eq_true_of_not_eq_false hr
          rw [generateAttempt_ok hk' hm hs' hr'] at h
          refine ⟨obj, rfl, ?_, hs', hr'⟩
          exact ((Except.ok.injEq _ _).mp h).symm

theorem editAttempt_prompts_eq {env : EditEnv} (pl instr : Msg)
    (a : Nat) (st : GenState) (hk : env.apiKeyPresent = true) :
    (editAttempt env pl instr a st).prompts = [editPromptOf pl instr a st] := by
  rcases hm : env.modelCall a (editPromptOf pl instr a st) with m | obj
  · rw [editAttempt_modelError hk hm]
  · by_cases hs : (validatePlantUMLForAI obj.plantuml).valid = false
    · rw [editAttempt_syntaxFail hk hm hs]
    · have hs' := bool_eq_true_of_not_eq_false hs
      by_cases hr : (validatePlantUMLByRendering (env.fetch a obj.plantuml)).valid = false
      · rw [editAttempt_renderFail hk hm hs' hr]
      · rw [editAttempt_ok hk hm hs' (bool_eq_true_of_not_eq_false hr)]

theorem editAttempt_prompts_le (env : EditEnv) (pl instr : Msg)
    (a : Nat) (st : GenState) : (editAttempt env pl instr a st).prompts.length ≤ 1 := by
  by_cases hk : env.apiKeyPresent = false
  · rw [editAttempt_keyMissing pl instr a st hk]
    simp
  · rw [editAttempt_prompts_eq pl instr a st (bool_eq_true_of_not_eq_false hk)]
    simp

theorem editAttempt_error_jsError {env : EditEnv} {pl instr : Msg}
    {a : Nat} {st : GenState} {e : Thrown} (hk : env.apiKeyPresent = true)
    (he : (editAttempt env pl instr a st).outcome = .error e) : ∃ m, e = .jsError m := by
  rcases hm : env.modelCall a (editPromptOf pl instr a st) with m | obj
  · rw [editAttempt_modelError hk hm] at he
    exact ⟨m, (Except.error.injEq _ _).mp he.symm⟩
  · by_cases hs : (validatePlantUMLForAI obj.plantuml).valid = false
    · rw [editAttempt_syntaxFail hk hm hs] at he
      exact ⟨_, (Except.error.injEq _ _).mp he.symm⟩
    · have hs' := bool_eq_true_of_not_eq_false hs
      by_cases hr : (validatePlantUMLByRendering (env.fetch a obj.plantuml)).valid = false
      · rw [editAttempt_renderFail hk hm hs' hr] at he
        exact ⟨_, (Except.error.injEq _ _).mp he.symm⟩
      · rw [editAttempt_ok hk hm hs' (bool_eq_true_of_not_eq_false hr)] at he
        exact absurd he (by simp)

theorem editAttempt_outcome_ok {env : EditEnv} {pl instr : Msg}
    {a : Nat} {st : GenState} {r : EditResult}
    (h : (editAttempt env pl instr a st).outcome = .ok r) :
    ∃ obj, env.modelCall a (editPromptOf pl instr a st) = .ok obj ∧
      r = { plantuml := obj.plantuml, changes := [obj.changes] } ∧
      (validatePlantUMLForAI obj.plantuml).valid = true ∧
      (validatePlantUMLByRendering (env.fetch a obj.plantuml)).valid = true := by
  by_cases hk : env.apiKeyPresent = false
  · rw [editAttempt_keyMissing pl instr a st hk] at h
    exact absurd h (by simp)
  · have hk' := bool_eq_true_of_not_eq_false hk
    rcases hm : env.modelCall a (editPromptOf pl instr a st) with m | obj
    · rw [editAttempt_modelError hk' hm] at h
      exact absurd h (by simp)
    · by_cases hs : (validatePlantUMLForAI obj.plantuml).valid = false
      · rw [editAttempt_syntaxFail hk' hm hs] at h
        exact absurd h (by simp)
      · have hs' := bool_eq_true_of_not_eq_false hs
        by_cases hr : (validatePlantUMLByRendering (env.fetch a obj.plantuml)).valid = false
        · rw [editAttempt_renderFail hk' hm hs' hr] at h
          exact absurd h (by simp)
        · have hr' := bool_eq_true_of_not_eq_false hr
          rw [editAttempt_ok hk' hm hs' hr'] at h
          refine ⟨obj, rfl, ?_, hs', hr'⟩
          exact ((Except.ok.injEq _ _).mp h).symm

theorem generateDiagramLoop_prompts_le (env : GenEnv) (d : Msg) (dt : DiagramType) :
    ∀ (fuel a : Nat) (st : GenState),
      (generateDiagramLoop env d dt fuel a st).prompts.length ≤ fuel := by
  intro fuel
  induction fuel with
  | zero => intro a st; simp [generateDiagramLoop]
  | succ n ih =>
    intro a st
    have hstep := generateAttempt_prompts_le env d dt a st
    simp only [generateDiagramLoop]
    rcases h : (generateAttempt env d dt a st).outcome with e | r
    · cases hnr : isNonRetriableGen e with
      | true =>
        simp only [hnr, if_true]
        omega
      | false =>
        by_cases hlast : a = MAX_RETRIES
        · subst hlast
          simp [hnr]
          omega
        · have hrec := ih (a + 1)
            { lastError := some e,
              lastValidation := (generateAttempt env d dt a st).state.lastValidation,
              lastPlantUML := (generateAttempt env d dt a st).state.lastPlantUML }
          simp [hnr, hlast]
          omega
    · simp only []
      omega

theorem editDiagramLoop_prompts_le (env : EditEnv) (pl instr : Msg) :
    ∀ (fuel a : Nat) (st : GenState),
      (editDiagramLoop env pl instr fuel a st).prompts.length ≤ fuel := by
  intro fuel
  induction fuel with
  | zero => intro a st; simp [editDiagramLoop]
  | succ n ih =>
    intro a st
    have hstep := editAttempt_prompts_le env pl instr a st
    simp only [editDiagramLoop]
    rcases h : (editAttempt env pl instr a st).outcome with e | r
    · cases hnr : isNonRetriableEdit e with
      | true =>
        simp only [hnr, if_true]
        omega
      | false =>
        by_cases hlast : a = MAX_RETRIES
        · subst hlast
          simp [hnr]
          omega
        · have hrec := ih (a + 1)
            { lastError := some e,
              lastValidation := (editAttempt env pl instr a st).state.lastValidation,
              lastPlantUML := (editAttempt env pl instr a st).state.lastPlantUML }
          simp [hnr, hlast]
          omega
    · simp only []
      omega

theorem generateDiagramLoop_ok (env : GenEnv) (d : Msg) (dt : DiagramType) :
    ∀ (fuel a : Nat) (st : GenState) (r : GenResult),
      (generateDiagramLoop env d dt fuel a st).outcome = .ok r →
      ∃ k, a ≤ k ∧ k < a + fuel ∧ ∃ p obj,
        env.modelCall k p = .ok obj ∧
        r = { description := obj.description, plantuml := obj.plantuml,
              diagramType := obj.diagramType.getD dt } ∧
        (validatePlantUMLForAI obj.plantuml (some dt)).valid = true ∧
        (validatePlantUMLByRendering (env.fetch k obj.plantuml)).valid = true := by
  intro fuel
  induction fuel with
  | zero =>
    intro a st r hout
    simp [generateDiagramLoop] at hout
  | succ n ih =>
    intro a st r hout
    simp only [generateDiagramLoop] at hout
    rcases h : (generateAttempt env d dt a st).outcome with e | r'
    · rw [h] at hout
      cases hnr : isNonRetriableGen e with
      | true =>
        simp only [hnr, if_true] at hout
        simp at hout
      | false =>
        by_cases hlast : a = MAX_RETRIES
        · simp [hnr, hlast] at hout
        · simp only [hnr, hlast] at hout
          simp only [Bool.false_eq_true, if_false] at hout
          rcases ih (a + 1) _ r hout with ⟨k, hk1, hk2, rest⟩
          exact ⟨k, by omega, by omega, rest⟩
    · rw [h] at hout
      simp only [] at hout
      rcases generateAttempt_outcome_ok h with ⟨obj, hm, hr, hs', hrv⟩
      refine ⟨a, le_refl a, by omega, generatePromptOf d dt a st, obj, hm, ?_, hs', hrv⟩
      cases hout
      exact hr

theorem editDiagramLoop_ok (env : EditEnv) (pl instr : Msg) :
    ∀ (fuel a : Nat) (st : GenState) (r : EditResult),
      (editDiagramLoop env pl instr fuel a st).outcome = .ok r →
      ∃ k, a ≤ k ∧ k < a + fuel ∧ ∃ p obj,
        env.modelCall k p = .ok obj ∧
        r = { plantuml := obj.plantuml, changes := [obj.changes] } ∧
        (validatePlantUMLForAI obj.plantuml).valid = true ∧
        (validatePlantUMLByRendering (env.fetch k obj.plantuml)).valid = true := by
  intro fuel
  induction fuel with
  | zero =>
    intro a st r hout
    simp [editDiagramLoop] at hout
  | succ n ih =>
    intro a st r hout
    simp only [editDiagramLoop] at hout
    rcases h : (editAttempt env pl instr a st).outcome with e | r'
    · rw [h] at hout
      cases hnr : isNonRetriableEdit e with
      | true =>
        simp only [hnr, if_true] at hout
        simp at hout
      | false =>
        by_cases hlast : a = MAX_RETRIES
        · simp [hnr, hlast] at hout
        · simp only [hnr, hlast] at hout
          simp only [Bool.false_eq_true, if_false] at hout
          rcases ih (a + 1) _ r hout with ⟨k, hk1, hk2, rest⟩
          exact ⟨k, by omega, by omega, rest⟩
    · rw [h] at hout
      simp only [] at hout
      rcases editAttempt_outcome_ok h with ⟨obj, hm, hr, hs', hrv⟩
      refine ⟨a, le_refl a, by omega, editPromptOf pl instr a st, obj, hm, ?_, hs', hrv⟩
      cases hout
      exact hr

theorem generateDiagramLoop_lastAttempt_prompts (env : GenEnv) (d : Msg) (dt : DiagramType)
    (st : GenState) :
    (generateDiagramLoop env d dt 1 MAX_RETRIES st).prompts =
      (generateAttempt env d dt MAX_RETRIES st).prompts := by
  simp only [generateDiagramLoop]
  rcases h : (generateAttempt env d dt MAX_RETRIES st).outcome with e | r
  · cases hnr : isNonRetriableGen e with
    | true => simp [hnr]
    | false => simp [hnr]
  · simp only []

theorem editDiagramLoop_lastAttempt_prompts (env : EditEnv) (pl instr : Msg)
    (st : GenState) :
    (editDiagramLoop env pl instr 1 MAX_RETRIES st).prompts =
      (editAttempt env pl instr MAX_RETRIES st).prompts := by
  simp only [editDiagramLoop]
  rcases h : (editAttempt env pl instr MAX_RETRIES st).outcome with e | r
  · cases hnr : isNonRetriableEdit e with
    | true => simp [hnr]
    | false => simp [hnr]
  · simp only []

theorem isNonRetriableGen_jsError (m : Msg) : isNonRetriableGen (.jsError m) = false := rfl

theorem isNonRetriableEdit_jsError (m : Msg) : isNonRetriableEdit (.jsError m) = false := rfl

theorem generateDiagramLoop_last_error {env : GenEnv} {d : Msg} {dt : DiagramType}
    {st : GenState} {e : Thrown} (hk : env.apiKeyPresent = true)
    (hout : (generateDiagramLoop env d dt 1 MAX_RETRIES st).outcome = .error e) :
    e = .aiError
      (generateExhaustMsg (generateDiagramLoop env d dt 1 MAX_RETRIES st).final) := by
  simp only [generateDiagramLoop] at hout ⊢
  rcases h : (generateAttempt env d dt MAX_RETRIES st).outcome with e1 | r
  · rcases generateAttempt_error_jsError hk h with ⟨m, rfl⟩
    rw [h] at hout
    simp only [isNonRetriableGen_jsError, Bool.false_eq_true, if_false, if_true] at hout ⊢
    exact ((Except.error.injEq _ _).mp hout).symm
  · rw [h] at hout
    simp at hout

theorem editDiagramLoop_last_error {env : EditEnv} {pl instr : Msg}
    {st : GenState} {e : Thrown} (hk : env.apiKeyPresent = true)
    (hout : (editDiagramLoop env pl instr 1 MAX_RETRIES st).outcome = .error e) :
    e = .aiError
      (editExhaustMsg (editDiagramLoop env pl instr 1 MAX_RETRIES st).final) := by
  simp only [editDiagramLoop] at hout ⊢
  rcases h : (editAttempt env pl instr MAX_RETRIES st).outcome with e1 | r
  · rcases editAttempt_error_jsError hk h with ⟨m, rfl⟩
    rw [h] at hout
    simp only [isNonRetriableEdit_jsError, Bool.false_eq_true, if_false, if_true] at hout ⊢
    exact ((Except.error.injEq _ _).mp hout).symm
  · rw [h] at hout
    simp at hout

theorem generateDiagram_error_shape {env : GenEnv} {d : Msg} {dt : DiagramType}
    {e : Thrown} (hk : env.apiKeyPresent = true)
    (hout : (generateDiagram env d dt).outcome = .error e) :
    e = .aiError (generateExhaustMsg (generateDiagram env d dt).final) := by
  unfold generateDiagram at hout ⊢
  have h2 : MAX_RETRIES = 1 + 1 := rfl
  rw [h2] at hout ⊢
  simp only [generateDiagramLoop] at hout ⊢
  rcases h : (generateAttempt env d dt 1
      { lastError := none, lastValidation := none, lastPlantUML := [] }).outcome with e1 | r
  · rcases generateAttempt_error_jsError hk h with ⟨m, rfl⟩
    rw [h] at hout
    simp only [isNonRetriableGen_jsError, Bool.false_eq_true, if_false] at hout ⊢
    have hne : ¬ (1 = MAX_RETRIES) := by decide
    simp only [hne, if_false] at hout ⊢
    exact generateDiagramLoop_last_error hk hout
  · rw [h] at hout
    simp at hout

theorem editDiagram_error_shape {env : EditEnv} {pl instr : Msg}
    {e : Thrown} (hk : env.apiKeyPresent = true)
    (hout : (editDiagram env pl instr).outcome = .error e) :
    e = .aiError (editExhaustMsg (editDiagram env pl instr).final) := by
  unfold editDiagram at hout ⊢
  have h2 : MAX_RETRIES = 1 + 1 := rfl
  rw [h2] at hout ⊢
  simp only [editDiagramLoop] at hout ⊢
  rcases h : (editAttempt env pl instr 1
      { lastError := none, lastValidation := none, lastPlantUML := [] }).outcome with e1 | r
  · rcases editAttempt_error_jsError hk h with ⟨m, rfl⟩
    rw [h] at hout
    simp only [isNonRetriableEdit_jsError, Bool.false_eq_true, if_false] at hout ⊢
    have hne : ¬ (1 = MAX_RETRIES) := by decide
    simp only [hne, if_false] at hout ⊢
    exact editDiagramLoop_last_error hk hout
  · rw [h] at hout
    simp at hout

theorem generateExhaustMsg_content (st : GenState) :
    (∀ v, st.lastValidation = some v →
      (∀ x ∈ v.errors, isSubList x (generateExhaustMsg st) = true) ∧
      (∀ x ∈ v.suggestions, isSubList x (generateExhaustMsg st) = true)) ∧
    isSubList st.lastPlantUML (generateExhaustMsg st) = true := by
  unfold generateExhaustMsg
  constructor
  · intro v hv
    rw [hv]
    constructor
    · intro x hx
      apply isSubList_append_left
      apply isSubList_append_right
      simp only [List.append_assoc]
      apply isSubList_append_right
      apply isSubList_append_left
      simp only [bulletItems]
      exact isSubList_joinSep (str "\n") (fun e => str "• " ++ e)
        (isSubList_suffix (str "• ") x) v.errors hx
    · intro x hx
      apply isSubList_append_left
      apply isSubList_append_right
      simp only [List.append_assoc]
      apply isSubList_append_right
      apply isSubList_append_right
      apply isSubList_append_right
      simp only [bulletItems]
      exact isSubList_joinSep (str "\n") (fun e => str "• " ++ e)
        (isSubList_suffix (str "• ") x) v.suggestions hx
  · by_cases hpl : st.lastPlantUML.isEmpty
    · rw [List.isEmpty_iff] at hpl
      rw [hpl]
      exact isSubList_nil _
    · simp only [hpl, if_false]
      apply isSubList_append_right
      exact isSubList_suffix _ _

theorem editExhaustMsg_content (st : GenState) :
    (∀ v, st.lastValidation = some v →
      (∀ x ∈ v.errors, isSubList x (editExhaustMsg st) = true) ∧
      (∀ x ∈ v.suggestions, isSubList x (editExhaustMsg st) = true)) ∧
    isSubList st.lastPlantUML (editExhaustMsg st) = true := by
  unfold editExhaustMsg
  constructor
  · intro v hv
    rw [hv]
    constructor
    · intro x hx
      apply isSubList_append_left
      apply isSubList_append_right
      simp only [List.append_assoc]
      apply isSubList_append_right
      apply isSubList_append_left
      simp only [bulletItems]
      exact isSubList_joinSep (str "\n") (fun e => str "• " ++ e)
        (isSubList_suffix (str "• ") x) v.errors hx
    · intro x hx
      apply isSubList_append_left
      apply isSubList_append_right
      simp only [List.append_assoc]
      apply isSubList_append_right
      apply isSubList_append_right
      apply isSubList_append_right
      simp only [bulletItems]
      exact isSubList_joinSep (str "\n") (fun e => str "• " ++ e)
        (isSubList_suffix (str "• ") x) v.suggestions hx
  · by_cases hpl : st.lastPlantUML.isEmpty
    · rw [List.isEmpty_iff] at hpl
      rw [hpl]
      exact isSubList_nil _
    · simp only [hpl, if_false]
      apply isSubList_append_right
      exact isSubList_suffix _ _

theorem error_isSubList_retry_prompt (d : Msg) (dt : DiagramType) (le : Option Msg)
    (fb : Feedback) {x : Msg} (hx : x ∈ fb.errors) :
    isSubList x (createGeneratePrompt d dt 2 le (some fb)) = true := by
  have hlen : fb.errors.length > 0 := List.length_pos.mpr (List.ne_nil_of_mem hx)
  have hgt : (decide ((2 : Nat) > 1)) = true := rfl
  unfold createGeneratePrompt
  simp only [Option.isSome_some, Bool.or_true, Bool.and_true, hgt, if_true]
  rw [if_pos hlen]
  simp only [List.append_assoc]
  apply isSubList_append_right
  apply isSubList_append_right
  apply isSubList_append_right
  apply isSubList_append_right
  apply isSubList_append_right
  apply isSubList_append_right
  apply isSubList_append_right
  apply isSubList_append_right
  apply isSubList_append_left
  exact isSubList_joinSep_numbered (str "❌") fb.errors 1 hx

theorem generateDiagram_second_prompt {env : GenEnv} {d : Msg} {dt : DiagramType}
    {obj : GenObject} (hk : env.apiKeyPresent = true)
    (hm : env.modelCall 1 (createGeneratePrompt d dt 1 none none) = .ok obj)
    (hs : (validatePlantUMLForAI obj.plantuml (some dt)).valid = false) :
    (generateDiagram env d dt).prompts =
      [createGeneratePrompt d dt 1 none none,
       createGeneratePrompt d dt 2
         (some (str "PlantUML syntax validation failed: " ++
            joinSep (str ", ") (validatePlantUMLForAI obj.plantuml (some dt)).errors))
         (some (Feedback.mk (validatePlantUMLForAI obj.plantuml (some dt)).errors
            (validatePlantUMLForAI obj.plantuml (some dt)).suggestions))] := by
  have hm' : env.modelCall 1 (generatePromptOf d dt 1
      { lastError := none, lastValidation := none, lastPlantUML := [] }) = .ok obj := hm
  unfold generateDiagram
  have h2 : MAX_RETRIES = 1 + 1 := rfl
  rw [h2]
  simp only [generateDiagramLoop]
  rw [generateAttempt_syntaxFail hk hm' hs]
  simp only [isNonRetriableGen_jsError, Bool.false_eq_true, if_false]
  have hne : ¬ (1 = MAX_RETRIES) := by decide
  simp only [hne, if_false]
  have hrest := generateDiagramLoop_lastAttempt_prompts env d dt
    { lastError := some (.jsError (str "PlantUML syntax validation failed: " ++
        joinSep (str ", ") (validatePlantUMLForAI obj.plantuml (some dt)).errors)),
      lastValidation := some (Feedback.mk (validatePlantUMLForAI obj.plantuml (some dt)).errors
        (validatePlantUMLForAI obj.plantuml (some dt)).suggestions),
      lastPlantUML := obj.plantuml }
  rw [generateAttempt_prompts_eq _ _ _ _ hk] at hrest
  rw [h2] at hrest
  simp only [generateDiagramLoop] at hrest
  rw [hrest]
  rfl

theorem scanLine_stack_mem {cs : Msg} {stack : List StackItem} {n : Nat} {it : StackItem}
    (h : it ∈ (scanLine cs stack n).1) :
    it ∈ stack ∨ (it.char ∈ cs ∧ isOpenBracket it.char = true) := by
  induction cs generalizing stack with
  | nil => exact Or.inl h
  | cons c rest ih =>
    simp only [scanLine] at h
    by_cases ho : isOpenBracket c = true
    · rw [if_pos ho] at h
      rcases ih h with hin | ⟨hc, hop⟩
      · rcases List.mem_cons.mp hin with rfl | hin
        · exact Or.inr ⟨List.mem_cons_self _ _, ho⟩
        · exact Or.inl hin
      · exact Or.inr ⟨List.mem_cons_of_mem _ hc, hop⟩
    · rw [if_neg ho] at h
      by_cases hc : isCloseBracket c = true
      · rw [if_pos hc] at h
        cases stack with
        | nil => simp at h
        | cons top restS =>
          dsimp only at h
          by_cases hmm : closingFor top.char = c
          · rw [if_pos hmm] at h
            rcases ih h with hin | hx
            · exact Or.inl (List.mem_cons_of_mem _ hin)
            · exact Or.inr ⟨List.mem_cons_of_mem _ hx.1, hx.2⟩
          · rw [if_neg hmm] at h
            exact Or.inl (List.mem_cons_of_mem _ h)
      · rw [if_neg hc] at h
        rcases ih h with hin | hx
        · exact Or.inl hin
        · exact Or.inr ⟨List.mem_cons_of_mem _ hx.1, hx.2⟩

theorem scanAllLines_stack_mem {ls : List Msg} {n : Nat} {stack : List StackItem}
    {it : StackItem} (h : it ∈ (scanAllLines ls n stack).1) :
    it ∈ stack ∨ ∃ l ∈ ls, it.char ∈ l ∧ isOpenBracket it.char = true := by
  induction ls generalizing n stack with
  | nil => exact Or.inl h
  | cons l ls ih =>
    simp only [scanAllLines] at h
    rcases ih h with hin | ⟨l', hl', hx⟩
    · rcases scanLine_stack_mem hin with hs | hx
      · exact Or.inl hs
      · exact Or.inr ⟨l, List.mem_cons_self _ _, hx⟩
    · exact Or.inr ⟨l', List.mem_cons_of_mem _ hl', hx⟩

theorem splitLinesAux_chars {s : Msg} {acc : Msg} {l : Msg} {c : Char}
    (hl : l ∈ splitLinesAux s acc) (hc : c ∈ l) : c ∈ s ∨ c ∈ acc := by
  induction s generalizing acc with
  | nil =>
    simp only [splitLinesAux] at hl
    rcases List.mem_singleton.mp hl with rfl
    exact Or.inr (List.mem_reverse.mp hc)
  | cons a rest ih =>
    simp only [splitLinesAux] at hl
    by_cases ha : a = '\n'
    · rw [if_pos ha] at hl
      rcases List.mem_cons.mp hl with rfl | hl
      · exact Or.inr (List.mem_reverse.mp hc)
      · rcases ih hl with h1 | h2
        · exact Or.inl (List.mem_cons_of_mem _ h1)
        · simp at h2
    · rw [if_neg ha] at hl
      rcases ih hl with h1 | h2
      · exact Or.inl (List.mem_cons_of_mem _ h1)
      · rcases List.mem_cons.mp h2 with rfl | h2
        · exact Or.inl (List.mem_cons_self _ _)
        · exact Or.inr h2

theorem mem_dropWhile_of_not {p : Char → Bool} {l : Msg} {x : Char}
    (hx : x ∈ l) (hp : p x = false) : x ∈ List.dropWhile p l := by
  induction l with
  | nil => cases hx
  | cons a rest ih =>
    rw [List.dropWhile_cons]
    by_cases ha : p a = true
    · rw [if_pos ha]
      rcases List.mem_cons.mp hx with rfl | hx
      · rw [hp] at ha; cases ha
      · exact ih hx
    · rw [if_neg ha]
      exact hx

theorem trimChars_ne_nil_of_mem {s : Msg} {c : Char}
    (hc : c ∈ s) (hw : isWsChar c = false) : trimChars s ≠ [] := by
  intro h
  unfold trimChars at h
  rw [List.reverse_eq_nil_iff, List.dropWhile_eq_nil_iff] at h
  have hc1 : c ∈ List.dropWhile isWsChar s := mem_dropWhile_of_not hc hw
  have hc2 : c ∈ (List.dropWhile isWsChar s).reverse := List.mem_reverse.mpr hc1
  have := h c hc2
  rw [hw] at this
  cases this

theorem isOpenBracket_not_ws {c : Char} (h : isOpenBracket c = true) : isWsChar c = false := by
  unfold isOpenBracket at h
  simp only [Bool.or_eq_true, decide_eq_true_eq] at h
  rcases h with (h | h) | h <;> subst h <;> rfl

theorem validatePlantUMLForAI_valid_iff (text : Msg) (k : Option DiagramType) :
    (validatePlantUMLForAI text k).valid = true ↔
      (validatePlantUMLForAI text k).errors = [] := by
  unfold validatePlantUMLForAI
  split
  · simp
  · simp [List.isEmpty_iff]

theorem checkBalancedBrackets_valid_eq (text : Msg) :
    (checkBalancedBrackets text).valid = (checkBalancedBrackets text).errors.isEmpty := rfl

theorem unclosedErr_mem_checkBalancedBrackets {text : Msg}
    (hne : (scanAllLines (splitLines text) 1 []).1 ≠ []) :
    unclosedErr (scanAllLines (splitLines text) 1 []).1.reverse ∈
      (checkBalancedBrackets text).errors := by
  unfold checkBalancedBrackets
  have hie : (scanAllLines (splitLines text) 1 []).1.isEmpty = false := by
    rcases h : (scanAllLines (splitLines text) 1 []).1 with _ | ⟨a, l⟩
    · exact absurd h hne
    · rfl
  simp only [hie, Bool.false_eq_true, if_false]
  exact List.mem_append_right _ (List.mem_singleton.mpr rfl)

theorem balance_error_mem_validator {text : Msg} {k : Option DiagramType} {x : Msg}
    (hx : x ∈ (checkBalancedBrackets text).errors)
    (htrim : trimChars text ≠ []) :
    x ∈ (validatePlantUMLForAI text k).errors := by
  have htrim' : ¬ ((trimChars text).isEmpty = true) := by
    simp only [List.isEmpty_iff]
    exact htrim
  have hvalid : (checkBalancedBrackets text).valid = false := by
    rw [checkBalancedBrackets_valid_eq]
    rcases h : (checkBalancedBrackets text).errors with _ | ⟨a, l⟩
    · rw [h] at hx; cases hx
    · rfl
  unfold validatePlantUMLForAI
  rw [if_neg htrim']
  simp only [hvalid, Bool.false_eq_true, if_false]
  apply List.mem_append_left
  apply List.mem_append_left
  apply List.mem_append_left
  apply List.mem_append_left
  exact List.mem_append_right _ hx

/-- C6: for every input string (malformed included) and with or without a
diagram kind, the Syntax Validator `validatePlantUMLForAI` returns a
verdict without throwing (it is a total function of this embedding), and
the returned `valid` flag is `true` exactly when the returned `errors`
list is empty. -/
theorem claim6_validator_valid_iff_no_errors :
    ∀ (text : Msg) (k : Option DiagramType),
      (validatePlantUMLForAI text k).valid = true ↔
        (validatePlantUMLForAI text k).errors = [] :=
  fun text k => validatePlantUMLForAI_valid_iff text k

/-- C7: the Syntax Validator on the exact text
`"@startuml\n[A] --> [B]\n@enduml"` with diagram kind `component` returns
`valid = true` with an empty error list (and no suggestions). -/
theorem claim7_component_scenario_passes :
    validatePlantUMLForAI (str "@startuml\n[A] --> [B]\n@enduml") (some .component) =
      { valid := true, errors := [], suggestions := [] } := by
  decide

/-- C8: whenever the bracket scan of `checkBalancedBrackets` leaves an
unmatched opening bracket/parenthesis/brace on its stack, the Syntax
Validator returns `valid = false` and its error list contains the
`Unclosed brackets/parentheses:` error, which names every leftover symbol
together with the line it occurs on; in particular the exact text
`"@startuml\n[A --> [B]\n@enduml"` fails with an error identifying the
unclosed `[` on line 2. -/
theorem claim8_unbalanced_brackets_reported :
    (∀ (text : Msg) (k : Option DiagramType),
      (scanAllLines (splitLines text) 1 []).1 ≠ [] →
      (validatePlantUMLForAI text k).valid = false ∧
      unclosedErr (scanAllLines (splitLines text) 1 []).1.reverse ∈
        (validatePlantUMLForAI text k).errors ∧
      ∀ it ∈ (scanAllLines (splitLines text) 1 []).1,
        isSubList (stackItemDesc it)
          (unclosedErr (scanAllLines (splitLines text) 1 []).1.reverse) = true) ∧
    ((validatePlantUMLForAI (str "@startuml\n[A --> [B]\n@enduml") none).valid = false ∧
     (validatePlantUMLForAI (str "@startuml\n[A --> [B]\n@enduml") none).errors =
       [str "Unclosed brackets/parentheses: \x27[\x27 on line 2"]) := by
  constructor
  · intro text k hne
    obtain ⟨it, hit⟩ := List.exists_mem_of_ne_nil _ hne
    have hopen : it.char ∈ text ∧ isOpenBracket it.char = true := by
      rcases scanAllLines_stack_mem hit with hin | ⟨l, hl, hcl, hop⟩
      · cases hin
      · rcases splitLinesAux_chars hl hcl with hmem | hmem
        · exact ⟨hmem, hop⟩
        · cases hmem
    have htrim : trimChars text ≠ [] :=
      trimChars_ne_nil_of_mem hopen.1 (isOpenBracket_not_ws hopen.2)
    have hmem := unclosedErr_mem_checkBalancedBrackets hne
    have hmemv := balance_error_mem_validator (k := k) hmem htrim
    refine ⟨?_, hmemv, ?_⟩
    · rcases hv : (validatePlantUMLForAI text k).valid with _ | _
      · rfl
      · have := (validatePlantUMLForAI_valid_iff text k).mp hv
        rw [this] at hmemv
        cases hmemv
    · intro it2 hit2
      unfold unclosedErr
      apply isSubList_append_right
      exact isSubList_joinSep (str ", ") stackItemDesc (isSubList_refl _)
        _ (List.mem_reverse.mpr hit2)
  · constructor
    · decide
    · decide

/-- Witness for C8: the concrete text `"@startuml\n[A --> [B]\n@enduml"`
leaves an unmatched `[` on the bracket stack, and the universal statement
applied to it reports the failure. -/
theorem claim8_witness :
    (scanAllLines (splitLines (str "@startuml\n[A --> [B]\n@enduml")) 1 []).1 ≠ [] ∧
    (validatePlantUMLForAI (str "@startuml\n[A --> [B]\n@enduml") none).valid = false ∧
    unclosedErr
        (scanAllLines (splitLines (str "@startuml\n[A --> [B]\n@enduml")) 1 []).1.reverse ∈
      (validatePlantUMLForAI (str "@startuml\n[A --> [B]\n@enduml") none).errors := by
  have hne : (scanAllLines (splitLines (str "@startuml\n[A --> [B]\n@enduml")) 1 []).1 ≠ [] := by
    decide
  have h := claim8_unbalanced_brackets_reported.1
    (str "@startuml\n[A --> [B]\n@enduml") none hne
  exact ⟨hne, h.1, h.2.1⟩

/-- C1: `MAX_RETRIES` is 2, and for every environment (model, renderer,
credential) a `generateDiagram` or `editDiagram` call invokes the
generative model at most `MAX_RETRIES` times (one recorded prompt per
model invocation); termination is embodied by these being total
functions returning a candidate (`Except.ok`) or a thrown error
(`Except.error`). -/
theorem claim1_retry_budget_bounded :
    MAX_RETRIES = 2 ∧
    (∀ (env : GenEnv) (d : Msg) (dt : DiagramType),
      (generateDiagram env d dt).prompts.length ≤ MAX_RETRIES) ∧
    (∀ (env : EditEnv) (pl instr : Msg),
      (editDiagram env pl instr).prompts.length ≤ MAX_RETRIES) := by
  refine ⟨rfl, ?_, ?_⟩
  · intro env d dt
    exact generateDiagramLoop_prompts_le env d dt MAX_RETRIES 1 _
  · intro env pl instr
    exact editDiagramLoop_prompts_le env pl instr MAX_RETRIES 1 _

/-- C2: a candidate is returned by `generateDiagram` (resp. `editDiagram`)
only if the Syntax Validator accepted its PlantUML text and the Render
Validator accepted the same text at the same attempt `k` that produced
it; a candidate failing either validator is never returned. -/
theorem claim2_candidate_passed_both_validators :
    (∀ (env : GenEnv) (d : Msg) (dt : DiagramType) (r : GenResult),
      (generateDiagram env d dt).outcome = .ok r →
      (validatePlantUMLForAI r.plantuml (some dt)).valid = true ∧
      ∃ k, 1 ≤ k ∧ k ≤ MAX_RETRIES ∧
        (validatePlantUMLByRendering (env.fetch k r.plantuml)).valid = true ∧
        ∃ p obj, env.modelCall k p = .ok obj ∧ obj.plantuml = r.plantuml) ∧
    (∀ (env : EditEnv) (pl instr : Msg) (r : EditResult),
      (editDiagram env pl instr).outcome = .ok r →
      (validatePlantUMLForAI r.plantuml).valid = true ∧
      ∃ k, 1 ≤ k ∧ k ≤ MAX_RETRIES ∧
        (validatePlantUMLByRendering (env.fetch k r.plantuml)).valid = true ∧
        ∃ p obj, env.modelCall k p = .ok obj ∧ obj.plantuml = r.plantuml) := by
  constructor
  · intro env d dt r hout
    rcases generateDiagramLoop_ok env d dt MAX_RETRIES 1 _ r hout with
      ⟨k, hk1, hk2, p, obj, hm, hr, hs, hrv⟩
    subst hr
    exact ⟨hs, k, hk1, by omega, hrv, p, obj, hm, rfl⟩
  · intro env pl instr r hout
    rcases editDiagramLoop_ok env pl instr MAX_RETRIES 1 _ r hout with
      ⟨k, hk1, hk2, p, obj, hm, hr, hs, hrv⟩
    subst hr
    exact ⟨hs, k, hk1, by omega, hrv, p, obj, hm, rfl⟩

/-- Witness for C2: in the environment whose model always answers with the
valid `goodText`, both calls succeed and the theorem yields the validator
guarantees at the producing attempt. -/
theorem claim2_witness :
    ((generateDiagram envOkGen (str "make a diagram") .component).outcome =
      .ok { description := str "d", plantuml := goodText, diagramType := .component } ∧
     (validatePlantUMLForAI goodText (some .component)).valid = true ∧
     ∃ k, 1 ≤ k ∧ k ≤ MAX_RETRIES ∧
       (validatePlantUMLByRendering (envOkGen.fetch k goodText)).valid = true ∧
       ∃ p obj, envOkGen.modelCall k p = .ok obj ∧ obj.plantuml = goodText) ∧
    ((editDiagram envOkEdit goodText (str "add a database")).outcome =
      .ok { plantuml := goodText, changes := [str "Added B"] } ∧
     (validatePlantUMLForAI goodText).valid = true ∧
     ∃ k, 1 ≤ k ∧ k ≤ MAX_RETRIES ∧
       (validatePlantUMLByRendering (envOkEdit.fetch k goodText)).valid = true ∧
       ∃ p obj, envOkEdit.modelCall k p = .ok obj ∧ obj.plantuml = goodText) := by
  constructor
  · have hout : (generateDiagram envOkGen (str "make a diagram") .component).outcome =
        .ok { description := str "d", plantuml := goodText, diagramType := .component } := by
      rfl
    exact ⟨hout,
      claim2_candidate_passed_both_validators.1 envOkGen (str "make a diagram") .component _ hout⟩
  · have hout : (editDiagram envOkEdit goodText (str "add a database")).outcome =
        .ok { plantuml := goodText, changes := [str "Added B"] } := by
      rfl
    exact ⟨hout,
      claim2_candidate_passed_both_validators.2 envOkEdit goodText (str "add a database") _ hout⟩

/-- C3: when attempt 1 of `generateDiagram` produces a candidate that fails
syntax validation with verdict `V` (and `MAX_RETRIES = 2`, so attempt 1 is
the only attempt `k < MAX_RETRIES`), every error string of `V` occurs as a
substring of the prompt passed to the model on attempt 2. -/
theorem claim3_retry_prompt_contains_previous_errors :
    ∀ (env : GenEnv) (d : Msg) (dt : DiagramType) (obj : GenObject) (x : Msg),
      env.apiKeyPresent = true →
      env.modelCall 1 (createGeneratePrompt d dt 1 none none) = .ok obj →
      (validatePlantUMLForAI obj.plantuml (some dt)).valid = false →
      x ∈ (validatePlantUMLForAI obj.plantuml (some dt)).errors →
      isSubList x ((generateDiagram env d dt).prompts.getD 1 []) = true := by
  intro env d dt obj x hk hm hs hx
  rw [generateDiagram_second_prompt hk hm hs]
  simp only [List.getD_cons_succ, List.getD_cons_zero]
  exact error_isSubList_retry_prompt d dt _ _ hx

/-- Witness for C3: the model of `envSyntaxFailGen` answers with the
invalid `badText`; the component-kind error of the first verdict occurs in
the second prompt of the run. -/
theorem claim3_witness :
    envSyntaxFailGen.apiKeyPresent = true ∧
    envSyntaxFailGen.modelCall 1
      (createGeneratePrompt (str "make a diagram") .component 1 none none) = .ok objBad ∧
    (validatePlantUMLForAI objBad.plantuml (some .component)).valid = false ∧
    str "Component diagram missing [Component] syntax" ∈
      (validatePlantUMLForAI objBad.plantuml (some .component)).errors ∧
    isSubList (str "Component diagram missing [Component] syntax")
      ((generateDiagram envSyntaxFailGen (str "make a diagram") .component).prompts.getD 1 [])
      = true := by
  refine ⟨rfl, rfl, by decide, by decide, ?_⟩
  exact claim3_retry_prompt_contains_previous_errors envSyntaxFailGen
    (str "make a diagram") .component objBad _ rfl rfl (by decide) (by decide)

/-- C4: when every attempt of a `generateDiagram` (resp. `editDiagram`)
call fails (with the credential present, so that all `MAX_RETRIES`
attempts actually run), the call throws an `AIError` whose message
contains every error string and every suggestion string of the last
recorded validation verdict, and contains the PlantUML text of the last
attempted candidate verbatim as a substring. -/
theorem claim4_exhaustion_error_details :
    (∀ (env : GenEnv) (d : Msg) (dt : DiagramType) (e : Thrown),
      env.apiKeyPresent = true →
      (generateDiagram env d dt).outcome = .error e →
      ∃ m, e = .aiError m ∧
        (∀ v, (generateDiagram env d dt).final.lastValidation = some v →
          (∀ x ∈ v.errors, isSubList x m = true) ∧
          (∀ x ∈ v.suggestions, isSubList x m = true)) ∧
        isSubList (generateDiagram env d dt).final.lastPlantUML m = true) ∧
    (∀ (env : EditEnv) (pl instr : Msg) (e : Thrown),
      env.apiKeyPresent = true →
      (editDiagram env pl instr).outcome = .error e →
      ∃ m, e = .aiError m ∧
        (∀ v, (editDiagram env pl instr).final.lastValidation = some v →
          (∀ x ∈ v.errors, isSubList x m = true) ∧
          (∀ x ∈ v.suggestions, isSubList x m = true)) ∧
        isSubList (editDiagram env pl instr).final.lastPlantUML m = true) := by
  constructor
  · intro env d dt e hk hout
    exact ⟨generateExhaustMsg (generateDiagram env d dt).final,
      generateDiagram_error_shape hk hout,
      (generateExhaustMsg_content _).1, (generateExhaustMsg_content _).2⟩
  · intro env pl instr e hk hout
    exact ⟨editExhaustMsg (editDiagram env pl instr).final,
      editDiagram_error_shape hk hout,
      (editExhaustMsg_content _).1, (editExhaustMsg_content _).2⟩

/-- Witness for C4: with the model always answering the invalid `badText`,
both attempts fail and the thrown error's message carries the final
verdict and the last candidate text. -/
theorem claim4_witness :
    envSyntaxFailGen.apiKeyPresent = true ∧
    (generateDiagram envSyntaxFailGen (str "make a diagram") .component).outcome =
      .error (.aiError (generateExhaustMsg
        (generateDiagram envSyntaxFailGen (str "make a diagram") .component).final)) ∧
    ∃ m, Thrown.aiError (generateExhaustMsg
        (generateDiagram envSyntaxFailGen (str "make a diagram") .component).final) =
        .aiError m ∧
      (∀ v, (generateDiagram envSyntaxFailGen (str "make a diagram") .component).final.lastValidation
          = some v →
        (∀ x ∈ v.errors, isSubList x m = true) ∧
        (∀ x ∈ v.suggestions, isSubList x m = true)) ∧
      isSubList
        (generateDiagram envSyntaxFailGen (str "make a diagram") .component).final.lastPlantUML
        m = true := by
  have hout : (generateDiagram envSyntaxFailGen (str "make a diagram") .component).outcome =
      .error (.aiError (generateExhaustMsg
        (generateDiagram envSyntaxFailGen (str "make a diagram") .component).final)) := by
    rfl
  exact ⟨rfl, hout,
    claim4_exhaustion_error_details.1 envSyntaxFailGen (str "make a diagram") .component _
      rfl hout⟩

/-- Counterexample to C5 as stated: in `envNetworkFirst` the model
invocation itself fails on attempt 1 with a network-level error that is
not a validation failure, yet the error does not propagate — a second
model invocation occurs (two prompts are sent) and the call returns a
candidate. -/
theorem claim5_counterexample :
    envNetworkFirst.modelCall 1
        (createGeneratePrompt (str "make a diagram") .component 1 none none) =
      .error (str "fetch failed: network error") ∧
    (generateDiagram envNetworkFirst (str "make a diagram") .component).prompts.length = 2 ∧
    (generateDiagram envNetworkFirst (str "make a diagram") .component).outcome =
      .ok { description := str "d", plantuml := goodText, diagramType := .component } := by
  exact ⟨rfl, rfl, rfl⟩

/-- C5 (amended): only `AIError` instances whose message is not a
validation-failure message are non-retriable.  The missing-credential
`AIError` propagates immediately with no model invocation at all, while an
error thrown by the model invocation itself (a plain `Error`, e.g. a
network failure) is treated as retriable: a second model invocation
occurs. -/
theorem claim5_amended_nonretriable_only_aierror :
    (∀ (env : GenEnv) (d : Msg) (dt : DiagramType),
      env.apiKeyPresent = false →
      (generateDiagram env d dt).outcome =
        .error (.aiError (str "Google Generative AI API key is missing")) ∧
      (generateDiagram env d dt).prompts = []) ∧
    (∀ (env : GenEnv) (d : Msg) (dt : DiagramType) (m : Msg),
      env.apiKeyPresent = true →
      env.modelCall 1 (createGeneratePrompt d dt 1 none none) = .error m →
      (generateDiagram env d dt).prompts.length = 2) := by
  constructor
  · intro env d dt hk
    unfold generateDiagram
    have h2 : MAX_RETRIES = 1 + 1 := rfl
    rw [h2]
    simp only [generateDiagramLoop]
    rw [generateAttempt_keyMissing d dt 1 _ hk]
    have hnr : isNonRetriableGen
        (.aiError (str "Google Generative AI API key is missing")) = true := by decide
    simp only [hnr, if_true]
    exact ⟨trivial, trivial⟩
  · intro env d dt m hk hm
    have hm' : env.modelCall 1 (generatePromptOf d dt 1
        { lastError := none, lastValidation := none, lastPlantUML := [] }) = .error m := hm
    unfold generateDiagram
    have h2 : MAX_RETRIES = 1 + 1 := rfl
    rw [h2]
    simp only [generateDiagramLoop]
    rw [generateAttempt_modelError hk hm']
    simp only [isNonRetriableGen_jsError, Bool.false_eq_true, if_false]
    have hne : ¬ (1 = MAX_RETRIES) := by decide
    simp only [hne, if_false]
    have hrest := generateDiagramLoop_lastAttempt_prompts env d dt
      { lastError := some (.jsError m), lastValidation := none, lastPlantUML := [] }
    rw [generateAttempt_prompts_eq _ _ _ _ hk] at hrest
    rw [h2] at hrest
    simp only [generateDiagramLoop] at hrest
    rw [hrest]
    rfl

/-- Witness for the amended C5: with the credential absent the call throws
the missing-key `AIError` without invoking the model; in
`envNetworkFirst` the attempt-1 network error is retried and a second
invocation occurs. -/
theorem claim5_witness :
    ((generateDiagram envNoKey (str "make a diagram") .component).outcome =
        .error (.aiError (str "Google Generative AI API key is missing")) ∧
      (generateDiagram envNoKey (str "make a diagram") .component).prompts = []) ∧
    (generateDiagram envNetworkFirst (str "make a diagram") .component).prompts.length = 2 := by
  constructor
  · exact claim5_amended_nonretriable_only_aierror.1 envNoKey (str "make a diagram") .component rfl
  · exact claim5_amended_nonretriable_only_aierror.2 envNetworkFirst (str "make a diagram")
      .component (str "fetch failed: network error") rfl rfl

/-- Counterexample to C9 as stated: in `envContradictKind` the model
reports kind `sequence` for a text that passes validation for the
requested kind `component`; `generateDiagram` returns the model-reported
`sequence`, not the requested `component`, although the reported kind
contradicts the request. -/
theorem claim9_counterexample :
    (generateDiagram envContradictKind (str "make a diagram") .component).outcome =
      .ok { description := str "d", plantuml := goodText, diagramType := .sequence } ∧
    DiagramType.sequence ≠ DiagramType.component := by
  exact ⟨rfl, by decide⟩

/-- C9 (amended): when both validators pass on an attempt,
`generateDiagram` returns that candidate; the returned `diagramType` is
the model-reported kind whenever one is reported (even if it contradicts
the requested kind), and falls back to the requested kind only when the
model omits it (the `responseDiagramType || diagramType` fallback). -/
theorem claim9_amended_reported_kind_wins :
    (∀ (env : GenEnv) (d : Msg) (dt : DiagramType) (obj : GenObject),
      env.apiKeyPresent = true →
      env.modelCall 1 (createGeneratePrompt d dt 1 none none) = .ok obj →
      (validatePlantUMLForAI obj.plantuml (some dt)).valid = true →
      (validatePlantUMLByRendering (env.fetch 1 obj.plantuml)).valid = true →
      (generateDiagram env d dt).outcome =
        .ok { description := obj.description, plantuml := obj.plantuml,
              diagramType := obj.diagramType.getD dt }) ∧
    (∀ (env : GenEnv) (d : Msg) (dt : DiagramType) (r : GenResult),
      (generateDiagram env d dt).outcome = .ok r →
      ∃ k p obj, env.modelCall k p = .ok obj ∧
        r = { description := obj.description, plantuml := obj.plantuml,
              diagramType := obj.diagramType.getD dt }) := by
  constructor
  · intro env d dt obj hk hm hs hr
    have hm' : env.modelCall 1 (generatePromptOf d dt 1
        { lastError := none, lastValidation := none, lastPlantUML := [] }) = .ok obj := hm
    unfold generateDiagram
    have h2 : MAX_RETRIES = 1 + 1 := rfl
    rw [h2]
    simp only [generateDiagramLoop]
    rw [generateAttempt_ok hk hm' hs hr]
  · intro env d dt r hout
    rcases generateDiagramLoop_ok env d dt MAX_RETRIES 1 _ r hout with
      ⟨k, _, _, p, obj, hm, hr, _, _⟩
    exact ⟨k, p, obj, hm, hr⟩

/-- Witness for the amended C9: in `envOmitKind` the model omits the kind
and the returned candidate carries the requested `component`. -/
theorem claim9_witness :
    envOmitKind.apiKeyPresent = true ∧
    (generateDiagram envOmitKind (str "make a diagram") .component).outcome =
      .ok { description := str "d", plantuml := goodText, diagramType := .component } := by
  refine ⟨rfl, ?_⟩
  exact claim9_amended_reported_kind_wins.1 envOmitKind (str "make a diagram") .component
    { description := str "d", plantuml := goodText, diagramType := none }
    rfl rfl (by decide) rfl

/-- C10: an edit API request whose body passes the presence, emptiness and
length checks (with the service credential configured) but whose existing
PlantUML fails the syntax validator `validatePlantUML` is answered with
HTTP 400 carrying the validation errors, and `editDiagram` is never
invoked — no model call and no retry loop occur. -/
theorem claim10_edit_route_rejects_invalid_plantuml :
    ∀ (env : EditEnv) (body : EditRequestBody) (p instr : Msg),
      env.apiKeyPresent = true →
      body.plantuml = some p → p ≠ [] →
      body.editInstructions = some instr → instr ≠ [] →
      trimChars instr ≠ [] → instr.length ≤ 2000 →
      (validatePlantUML p).valid = false →
      editRoutePOST env body =
        { response :=
            { status := 400,
              error := some (str "Invalid PlantUML code provided"),
              validationErrors := some (validatePlantUML p).errors, result := none },
          editCalled := false } := by
  intro env body p instr hk hp hpne hi hine htr hlen hval
  unfold editRoutePOST
  rw [hk, hp, hi]
  have hpe : p.isEmpty = false := by
    rcases h : p with _ | ⟨a, l⟩
    · exact absurd h hpne
    · rfl
  have hie : instr.isEmpty = false := by
    rcases h : instr with _ | ⟨a, l⟩
    · exact absurd h hine
    · rfl
  have hte : (trimChars instr).isEmpty = false := by
    rcases h : trimChars instr with _ | ⟨a, l⟩
    · exact absurd h htr
    · rfl
  have hnl : ¬ (2000 < instr.length) := by omega
  simp only [hpe, hie, hte, Bool.false_eq_true, Bool.true_eq_false, if_false, hnl, hval,
    if_true]

/-- Witness for C10: the concrete request `badRouteBody` (invalid existing
PlantUML, valid instructions) is answered with 400 and the validation
errors, without invoking `editDiagram`. -/
theorem claim10_witness :
    envOkEdit.apiKeyPresent = true ∧
    (validatePlantUML (str "@startuml\n[A --> [B]\n@enduml")).valid = false ∧
    editRoutePOST envOkEdit badRouteBody =
      { response :=
          { status := 400,
            error := some (str "Invalid PlantUML code provided"),
            validationErrors :=
              some (validatePlantUML (str "@startuml\n[A --> [B]\n@enduml")).errors,
            result := none },
        editCalled := false } := by
  refine ⟨rfl, by decide, ?_⟩
  exact claim10_edit_route_rejects_invalid_plantuml envOkEdit badRouteBody
    (str "@startuml\n[A --> [B]\n@enduml") (str "add a database")
    rfl rfl (by decide) rfl (by decide) (by decide) (by decide) (by decide)
